import Mathlib

/-!
# A formal model of `FBXAnimationExporter.py`

This file gives a shallow embedding of the Maya-facing Python module
`src/FBXAnimationExporter.py` and proves properties of its procedures.

The host application's scene is modelled explicitly: a scene is a list of
nodes, each with a name, a node type (a string such as `"joint"`,
`"transform"` or `"animLayer"`), an optional parent and an association list
of attributes.  The Maya commands used by the script (`objExists`,
`addAttr`, `setAttr`, `getAttr`, `ls`, `delete`, `connectAttr`,
`listRelatives`, `animLayer`, `setKeyframe`, `bakeResults`,
`playbackOptions`, `workspace`, `file`, `warning`) are modelled as pure
functions on this scene type.  Commands that raise a runtime error in the
host (for example `setAttr` or `getAttr` on a plug that does not exist) are
modelled in the `Except String` monad; a Python `NameError`, `TypeError`,
`AttributeError` or `IndexError` raised by the script itself is modelled
the same way.  `cmds.listRelatives` returns `None` (not an empty list)
when nothing matches, and iterating or `.append`-ing that `None` raises —
the model keeps that behaviour through `Option`.

Conventions of the model:
* attribute paths are strings of the form `"node.attr"`; node names never
  contain a dot (the host enforces this; theorems that need it carry an
  explicit `noDot` hypothesis);
* frame times and numeric attribute values are modelled as `Int` (the
  script only copies and compares them, it never computes with them);
* `cmds.ls(tr=True)` lists the transform node types (joints are transforms
  in the host's type hierarchy), and `cmds.delete` cascades to all
  descendants, modelled through the parent pointers with the node count as
  recursion fuel;
* name generation for newly created nodes (the trailing-`#` convention of
  `cmds.group`, duplicate names, default animation-layer names) is
  modelled by appending a decimal numeral longer than every name in the
  scene; which concrete numeral the host picks is immaterial to every
  property proved here, only its freshness is used.

Definitions come first, then the theorems about them.
-/

/-- A value stored in a node attribute. -/
inductive AttrValue where
  | boolV (b : Bool)
  | numV (n : Int)
  | strV (s : String)
  | vecV (x y z : Int)
  | messageV
deriving DecidableEq, Repr

/-- A scene node: name, node type, optional parent, attributes. -/
structure SceneNode where
  name : String
  typ : String
  parent : Option String
  attrs : List (String × AttrValue)
deriving DecidableEq, Repr

/-- The Maya scene state visible to the script. -/
structure Scene where
  nodes : List SceneNode
  /-- established `connectAttr` connections, as (source plug, destination plug). -/
  connections : List (String × String)
  /-- plugs currently locked. -/
  locks : List String
  /-- the current selection list. -/
  selection : List String
  /-- keyframes set by the script: (target, optional anim layer, time). -/
  keys : List (String × Option String × Int)
  /-- `bakeResults` invocations: (baked object, start time, end time). -/
  bakes : List (String × Int × Int)
  /-- warnings emitted with `cmds.warning`. -/
  warnings : List String
  /-- files written with `cmds.file(..., es=True)`. -/
  files : List String
  playbackMin : Int
  playbackMax : Int
  currentTime : Int
  /-- the workspace root directory, `cmds.workspace(q=True, rd=True)`. -/
  workspaceRoot : String
deriving DecidableEq, Repr

/-- Look up an attribute in an association list. -/
def lookupA : List (String × AttrValue) → String → Option AttrValue
  | [], _ => none
  | (b, w) :: t, a => if b = a then some w else lookupA t a

/-- Set (or insert) an attribute in an association list. -/
def setA : List (String × AttrValue) → String → AttrValue → List (String × AttrValue)
  | [], a, v => [(a, v)]
  | (b, w) :: t, a, v => if b = a then (a, v) :: t else (b, w) :: setA t a v

/-- Does the node carry the attribute? -/
def SceneNode.hasAttr (nd : SceneNode) (a : String) : Bool :=
  (lookupA nd.attrs a).isSome

/-- Split a character list at the first `'.'`. -/
def splitDot : List Char → Option (List Char × List Char)
  | [] => none
  | c :: t =>
      if c = '.' then some ([], t)
      else (splitDot t).map (fun p => (c :: p.1, p.2))

/-- `true` when the string contains no `'.'` (a legal node name). -/
def noDot (s : String) : Bool := decide ('.' ∉ s.data)

/-- Parse `"node.attr"` into the node part and the optional attribute part. -/
def parsePath (p : String) : String × Option String :=
  match splitDot p.data with
  | none => (p, none)
  | some (a, b) => (⟨a⟩, some ⟨b⟩)

/-- First node with the given name, if any. -/
def Scene.findNode (s : Scene) (n : String) : Option SceneNode :=
  s.nodes.find? (fun nd => nd.name = n)

/-- `cmds.objExists`: a bare name tests node existence, `"node.attr"` tests
that the node exists and carries the attribute. -/
def Scene.objExists (s : Scene) (p : String) : Bool :=
  match parsePath p with
  | (n, none) => (s.findNode n).isSome
  | (n, some a) =>
      match s.findNode n with
      | none => false
      | some nd => nd.hasAttr a

/-- Apply `f` to every node named `n`. -/
def Scene.mapNode (s : Scene) (n : String) (f : SceneNode → SceneNode) : Scene :=
  { s with nodes := s.nodes.map (fun nd => if nd.name = n then f nd else nd) }

/-- `cmds.addAttr(node, longName=attr, ...)`: give the node a new attribute
with the type's default value.  Call sites guard on the attribute being
absent, mirroring the script. -/
def Scene.addAttr (s : Scene) (node attr : String) (v : AttrValue) : Scene :=
  s.mapNode node (fun nd => { nd with attrs := setA nd.attrs attr v })

/-- The value of a plug, if the node exists and carries the attribute. -/
def Scene.getAttr? (s : Scene) (p : String) : Option AttrValue :=
  match parsePath p with
  | (_, none) => none
  | (n, some a) =>
      match s.findNode n with
      | none => none
      | some nd => lookupA nd.attrs a

/-- Python truthiness of a `cmds.getAttr` result. -/
def truthy : AttrValue → Bool
  | .boolV b => b
  | .numV n => n != 0
  | .strV s => s != ""
  | .vecV _ _ _ => true
  | .messageV => false

/-- Truthiness of a plug's value; `false` when the plug is missing.  Used
only where the script guards the read with `objExists`. -/
def Scene.getAttrB (s : Scene) (p : String) : Bool :=
  match s.getAttr? p with
  | some v => truthy v
  | none => false

/-- `cmds.getAttr` where the host raises on a missing plug. -/
def Scene.getAttrE (s : Scene) (p : String) : Except String AttrValue :=
  match s.getAttr? p with
  | some v => .ok v
  | none => .error ("getAttr: no attribute matches name: " ++ p)

/-- Total `cmds.setAttr`: update the plug when it exists, otherwise leave
the scene unchanged.  Used where the script has just created the attribute
(so the update always applies). -/
def Scene.setAttrU (s : Scene) (p : String) (v : AttrValue) : Scene :=
  match parsePath p with
  | (_, none) => s
  | (n, some a) =>
      s.mapNode n (fun nd =>
        if nd.hasAttr a then { nd with attrs := setA nd.attrs a v } else nd)

/-- `cmds.setAttr` where the host raises on a missing plug (or on an
argument that names no plug at all). -/
def Scene.setAttrE (s : Scene) (p : String) (v : AttrValue) : Except String Scene :=
  match parsePath p with
  | (_, none) => .error ("setAttr: no attribute matches name: " ++ p)
  | (n, some a) =>
      match s.findNode n with
      | none => .error ("setAttr: no attribute matches name: " ++ p)
      | some nd =>
          if nd.hasAttr a then
            .ok (s.mapNode n (fun m =>
              if m.hasAttr a then { m with attrs := setA m.attrs a v } else m))
          else .error ("setAttr: no attribute matches name: " ++ p)

/-- `cmds.attributeQuery(attr, node=n, exists=True)`.  (The host errors on a
missing node; the script only uses this on nodes it assumes valid, so the
model returns `false` there.) -/
def Scene.attributeQueryExists (s : Scene) (attr node : String) : Bool :=
  match s.findNode node with
  | none => false
  | some nd => nd.hasAttr attr

/-- `SIP_TagForOrigin` (source lines 21–24): if the node exists and lacks
the `origin` attribute, add the bool attribute and set it to `True`. -/
def SIP_TagForOrigin (s : Scene) (node : String) : Scene :=
  if s.objExists node && !(s.objExists (node ++ ".origin")) then
    (s.addAttr node "origin" (.boolV false)).setAttrU (node ++ ".origin") (.boolV true)
  else s

/-- `SIP_TagForMeshExport` (source lines 30–32): if the mesh exists and
lacks the `exportMeshes` attribute, add the message attribute. -/
def SIP_TagForMeshExport (s : Scene) (mesh : String) : Scene :=
  if s.objExists mesh && !(s.objExists (mesh ++ ".exportMeshes")) then
    s.addAttr mesh "exportMeshes" .messageV
  else s

/-- `SIP_TagForExportNode` (source lines 39–41): if the node exists and
lacks the `exportNode` attribute, add the message attribute. -/
def SIP_TagForExportNode (s : Scene) (node : String) : Scene :=
  if s.objExists node && !(s.objExists (node ++ ".exportNode")) then
    s.addAttr node "exportNode" .messageV
  else s

/-- `SIP_TagForGarbage` (source lines 82–85): if the node exists and lacks
the `deleteMe` attribute, add the bool attribute and set it to `True`. -/
def SIP_TagForGarbage (s : Scene) (node : String) : Scene :=
  if s.objExists node && !(s.objExists (node ++ ".deleteMe")) then
    (s.addAttr node "deleteMe" (.boolV false)).setAttrU (node ++ ".deleteMe") (.boolV true)
  else s

/-- A scene holding the given nodes and nothing else. -/
def mkScene (nodes : List SceneNode) : Scene :=
  { nodes := nodes, connections := [], locks := [], selection := [], keys := [], bakes := [],
    warnings := [], files := [], playbackMin := 1, playbackMax := 24, currentTime := 1,
    workspaceRoot := "C:/project/" }

/-- A parentless joint. -/
def jointNode (n : String) (attrs : List (String × AttrValue)) : SceneNode :=
  { name := n, typ := "joint", parent := none, attrs := attrs }

/-- A parentless transform. -/
def transformNode (n : String) (attrs : List (String × AttrValue)) : SceneNode :=
  { name := n, typ := "transform", parent := none, attrs := attrs }

/-- Strip an expected list of leading characters. -/
def dropPre : List Char → List Char → Option (List Char)
  | [], r => some r
  | _, [] => none
  | a :: as, b :: bs => if a = b then dropPre as bs else none

/-- Does `name` match the glob `ns ++ ":*"`?  (Maya's `*` does not cross a
further namespace separator.) -/
def nsMatch (ns name : String) : Bool :=
  match dropPre (ns.data ++ [':']) name.data with
  | some rest => decide (':' ∉ rest)
  | none => false

/-- `cmds.ls((ns + ":*"), type="joint")`. -/
def Scene.lsJointsNs (s : Scene) (ns : String) : List String :=
  (s.nodes.filter (fun nd => nd.typ = "joint" && nsMatch ns nd.name)).map (fun nd => nd.name)

/-- `cmds.ls(type="joint")`. -/
def Scene.lsJoints (s : Scene) : List String :=
  (s.nodes.filter (fun nd => nd.typ = "joint")).map (fun nd => nd.name)

/-- The joint list built at the top of `SIP_ReturnOrigin`: namespace-filtered
when `ns` is non-empty (Python truthiness of the string), all joints
otherwise. -/
def lsJointsMaybeNs (s : Scene) (ns : String) : List String :=
  if ns != "" then s.lsJointsNs ns else s.lsJoints

/-- The per-joint test in `SIP_ReturnOrigin`'s loop:
`cmds.objExists(curJoint + ".origin") and cmds.getAttr(curJoint + ".origin")`. -/
def originTest (s : Scene) (j : String) : Bool :=
  s.objExists (j ++ ".origin") && s.getAttrB (j ++ ".origin")

/-- `SIP_ReturnOrigin` (source lines 51–64): return the first listed joint
whose `origin` attribute exists and is truthy, else the string "Error". -/
def SIP_ReturnOrigin (s : Scene) (ns : String) : String :=
  let joints := lsJointsMaybeNs s ns
  match joints.find? (originTest s) with
  | some j => j
  | none => "Error"

/-- The decimal digit character for `n % 10`. -/
def digitChar : Nat → Char
  | 0 => '0' | 1 => '1' | 2 => '2' | 3 => '3' | 4 => '4'
  | 5 => '5' | 6 => '6' | 7 => '7' | 8 => '8' | _ => '9'

/-- Decimal digits, with explicit recursion fuel (any fuel above the
argument suffices, and the top-level wrapper passes `n + 1`). -/
def natDigitsAux : Nat → Nat → List Char
  | 0, _ => []
  | fuel + 1, n =>
      if n < 10 then [digitChar n]
      else natDigitsAux fuel (n / 10) ++ [digitChar (n % 10)]

/-- Decimal digits of a natural number. -/
def natDigits (n : Nat) : List Char := natDigitsAux (n + 1) n

/-- The longest node-name length in the scene. -/
def Scene.maxNameLen (s : Scene) : Nat :=
  s.nodes.foldr (fun nd acc => max nd.name.data.length acc) 0

/-- The numeral suffix the model appends to generated names. -/
def Scene.freshSuffix (s : Scene) : String :=
  ⟨natDigits (10 ^ s.maxNameLen)⟩

/-- A generated node name: the base with the fresh numeral appended. -/
def Scene.freshName (s : Scene) (base : String) : String :=
  base ++ s.freshSuffix

/-- The ten export-configuration attributes added by `SIP_AddFBXNodeAttrs`
(source lines 151–180), in source order, with the default value of each
attribute type (`at="bool"` defaults to false, `dt="string"` to the empty
string, `at="float"` to 0, `at="message"` carries no value). -/
def fbxAttrSpec : List (String × AttrValue) :=
  [("export", .boolV false), ("moveToOrigin", .boolV false), ("zeroOrigin", .boolV false),
   ("exportName", .strV ""), ("useSubRange", .boolV false), ("startFrame", .numV 0),
   ("endFrame", .numV 0), ("exportMeshes", .messageV), ("exportNode", .messageV),
   ("animLayers", .strV "")]

/-- `SIP_AddFBXNodeAttrs` (source lines 151–180): for each of the ten
attributes, in sequence, add it when `attributeQuery` says it is missing. -/
def SIP_AddFBXNodeAttrs (s : Scene) (fbxExportNode : String) : Scene :=
  fbxAttrSpec.foldl
    (fun t p => if !(t.attributeQueryExists p.1 fbxExportNode) then t.addAttr fbxExportNode p.1 p.2 else t)
    s

/-- `cmds.group(em=True, name=nm)`: create an empty transform node. -/
def Scene.createNode (s : Scene) (name typ : String) : Scene :=
  { s with nodes := { name := name, typ := typ, parent := none, attrs := [] } :: s.nodes }

/-- `SIP_CreateFBXExportNode` (source lines 186–190): create an empty
transform named `characterName + "FBXExportNode#"` (the host replaces `#`
with a fresh numeral), add the ten attributes, set `export` to 1 (true on
the bool attribute) and return the node. -/
def SIP_CreateFBXExportNode (s : Scene) (characterName : String) : Scene × String :=
  let fbxExportNode := s.freshName (characterName ++ "FBXExportNode")
  let s1 := s.createNode fbxExportNode "transform"
  let s2 := SIP_AddFBXNodeAttrs s1 fbxExportNode
  let s3 := s2.setAttrU (fbxExportNode ++ ".export") (.boolV true)
  (s3, fbxExportNode)

/-- The action of one add-if-missing step on the tracked node. -/
def nodeAddAttr (nd : SceneNode) (a : String) (v : AttrValue) : SceneNode :=
  if nd.hasAttr a then nd else { nd with attrs := setA nd.attrs a v }

/-- `cmds.warning(msg)`. -/
def Scene.warn (s : Scene) (msg : String) : Scene :=
  { s with warnings := s.warnings ++ [msg] }

/-- `cmds.file(path, force=True, type='FBX export', pr=True, es=True)`:
write the export file at `path`. -/
def Scene.exportFile (s : Scene) (path : String) : Scene :=
  { s with files := s.files ++ [path] }

/-- `SIP_ExportFBX` (source lines 435–443): read the workspace root and the
node's `exportName`; when the name is truthy write the file at root ++ name,
otherwise emit a warning naming the export node. -/
def SIP_ExportFBX (s : Scene) (exportNode : String) : Except String Scene :=
  let curWorkspace := s.workspaceRoot
  match s.getAttr? (exportNode ++ ".exportName") with
  | none => .error ("getAttr: no attribute matches name: " ++ exportNode ++ ".exportName")
  | some fileName =>
      if truthy fileName then
        match fileName with
        | .strV f => .ok (s.exportFile (curWorkspace ++ f))
        | _ => .error "TypeError: cannot concatenate str and non-str"
      else
        .ok (s.warn ("No Valid Export Filename for Export Node " ++ exportNode ++ "\n"))

/-- The frame-range selection inside `SIP_ExportFBXAnimation` (source lines
476–483): line 476 sets the start frame from
`cmds.playbackOptions(query=True, minTime=1)`, and line 477 sets the end
frame from `cmds.playbackOptions(query=True, minTime=1)` as well (it
queries `minTime`, not `maxTime`).  When the node's `useSubRange` is truthy
both frames are replaced by the node's `startFrame`/`endFrame` attributes. -/
def SIP_ExportFBXAnimation_frameRange (s : Scene) (exportNode : String) :
    Except String (AttrValue × AttrValue) := do
  let startFrame := AttrValue.numV s.playbackMin
  let endFrame := AttrValue.numV s.playbackMin
  let subAnimCheck ← s.getAttrE (exportNode ++ ".useSubRange")
  if truthy subAnimCheck then do
    let st ← s.getAttrE (exportNode ++ ".startFrame")
    let en ← s.getAttrE (exportNode ++ ".endFrame")
    pure (st, en)
  else
    pure (startFrame, endFrame)

/-- `cmds.connectAttr(src, dst)`: the host errors unless both plugs exist. -/
def Scene.connectAttrE (s : Scene) (src dst : String) : Except String Scene :=
  if s.objExists src && s.objExists dst then
    .ok { s with connections := s.connections ++ [(src, dst)] }
  else .error ("connectAttr: connection not made: " ++ src ++ " " ++ dst)

/-- `SIP_ConnectFBXExportNodeToOrigin` (source lines 131–137): when both
nodes exist, tag the origin when it lacks `exportNode`, then — when the
export node lacks `exportNode` — the source calls
`SIP_AddFBXNodeAttrs(fbxExportNode)` (line 136), but no variable named
`fbxExportNode` is in scope in that function, so Python raises `NameError`;
otherwise connect `origin.exportNode` to `exportNode.exportNode`. -/
def SIP_ConnectFBXExportNodeToOrigin (s : Scene) (exportNode origin : String) :
    Except String Scene :=
  if s.objExists origin && s.objExists exportNode then
    let s1 := if !(s.objExists (origin ++ ".exportNode")) then SIP_TagForExportNode s origin else s
    if !(s1.objExists (exportNode ++ ".exportNode")) then
      .error "NameError: name fbxExportNode is not defined"
    else
      s1.connectAttrE (origin ++ ".exportNode") (exportNode ++ ".exportNode")
  else .ok s

/-- `cmds.ls(type=t)`. -/
def Scene.lsType (s : Scene) (t : String) : List String :=
  (s.nodes.filter (fun nd => nd.typ = t)).map (fun nd => nd.name)

/-- Python `str()` of a bool. -/
def pyBoolStr (b : Bool) : String := if b then "True" else "False"

/-- `cmds.animLayer(layer, query=True, mute=True)`. -/
def Scene.animLayerQueryMute (s : Scene) (layer : String) : Except String Bool :=
  match s.getAttr? (layer ++ ".mute") with
  | some (.boolV b) => .ok b
  | _ => .error ("animLayer: no anim layer matches: " ++ layer)

/-- `cmds.animLayer(layer, query=True, solo=True)`. -/
def Scene.animLayerQuerySolo (s : Scene) (layer : String) : Except String Bool :=
  match s.getAttr? (layer ++ ".solo") with
  | some (.boolV b) => .ok b
  | _ => .error ("animLayer: no anim layer matches: " ++ layer)

/-- `cmds.animLayer(layer, edit=True, mute=m, solo=so)`. -/
def Scene.animLayerEditMuteSolo (s : Scene) (layer : String) (m so : Bool) :
    Except String Scene :=
  match s.findNode layer with
  | some nd =>
      if nd.typ = "animLayer" then
        .ok ((s.setAttrU (layer ++ ".mute") (.boolV m)).setAttrU (layer ++ ".solo") (.boolV so))
      else .error ("animLayer: no anim layer matches: " ++ layer)
  | none => .error ("animLayer: no anim layer matches: " ++ layer)

/-- `SIP_SetAnimLayerSettings` (source lines 364–376): ensure the
`animLayers` attribute, list nodes of type `"animLayers"` (the host's node
type is `"animLayer"`, so this matches nothing), build the settings string
(entries ended by `;`, fields by `,`, attribute from value by ` = `), and
store it with `cmds.setAttr(exportNode + "animLayers", ...)` — the source
omits the `"."` before the attribute name, so the host is asked to set a
plug on the nonexistent object `exportNode ++ "animLayers"` and raises. -/
def SIP_SetAnimLayerSettings (s : Scene) (exportNode : String) : Except String Scene := do
  let s0 := if !(s.attributeQueryExists "animLayers" exportNode)
            then SIP_AddFBXNodeAttrs s exportNode else s
  let animLayers := s0.lsType "animLayers"
  let animLayerCommandStr ← animLayers.foldlM
    (fun acc curLayer => do
      let m ← s0.animLayerQueryMute curLayer
      let so ← s0.animLayerQuerySolo curLayer
      pure (acc ++ curLayer ++ ",  mute = " ++ pyBoolStr m ++ ", solo = " ++ pyBoolStr so ++ ";"))
    ""
  s0.setAttrE (exportNode ++ "animLayers") (.strV animLayerCommandStr)

/-- One iteration of the restore loop in `SIP_SetAnimLayersFromSettings`
(source lines 395–415).  The `cmds.animLayer(..., edit=True, ...)` call is
indented inside the `for` but outside the `if curEntry:` guard, so an empty
entry reuses the previous iteration's parsed values (Python `NameError`
when there are none). -/
def animLayerRestoreStep (st : Scene × Option (String × Bool × Bool)) (curEntry : String) :
    Except String (Scene × Option (String × Bool × Bool)) := do
  let vars ←
    (if curEntry != "" then
      match curEntry.splitOn "," with
      | animLayerField :: curMuteField :: curSoloField :: _ =>
          (match (curMuteField.splitOn " = ").get? 1, (curSoloField.splitOn " = ").get? 1 with
           | some m1, some s1 =>
               Except.ok (animLayerField, m1 == "True", s1 == "True")
           | _, _ => Except.error "IndexError: list index out of range")
      | _ => Except.error "IndexError: list index out of range"
    else
      match st.2 with
      | some v => Except.ok v
      | none => Except.error "NameError: name animLayerField is not defined")
  let s1 ← st.1.animLayerEditMuteSolo vars.1 vars.2.1 vars.2.2
  pure (s1, some vars)

/-- `SIP_SetAnimLayersFromSettings` (source lines 388–415).  The guard is
`cmds.objExists(exportNode) and not cmds.objExists(exportNode + ".animLayers")`
— with the `not`, the settings string is only read when the `animLayers`
attribute does *not* exist, in which case `cmds.getAttr` raises; when the
attribute does exist (the recorded case) the function does nothing. -/
def SIP_SetAnimLayersFromSettings (s : Scene) (exportNode : String) : Except String Scene := do
  if s.objExists exportNode && !(s.objExists (exportNode ++ ".animLayers")) then do
    let animLayersRootString ←
      (match s.getAttr? (exportNode ++ ".animLayers") with
       | some (.strV str) => Except.ok str
       | _ => Except.error ("getAttr: no attribute matches name: " ++ exportNode ++ ".animLayers"))
    if animLayersRootString != "" then do
      let res ← (animLayersRootString.splitOn ";").foldlM animLayerRestoreStep
        (s, (none : Option (String × Bool × Bool)))
      pure res.1
    else
      pure s
  else
    pure s

/-- An animation layer node carrying its mute/solo state. -/
def animLayerNode (n : String) (m so : Bool) : SceneNode :=
  { name := n, typ := "animLayer", parent := none,
    attrs := [("mute", .boolV m), ("solo", .boolV so)] }

/-- `cmds.animLayer(aso=True, mute=m, solo=so, override=ov, passthrough=pt,
lock=lk)`: create a new animation layer (the host picks a fresh default
name) carrying the given flags and its accumulation-mode and weight
attributes at their defaults.  (Adding the selected objects to the layer is
a host-side effect no property here depends on, so the model does not track
layer membership.) -/
def animLayerInitAttrs (m so ov pt lk : Bool) : List (String × AttrValue) :=
  [("mute", .boolV m), ("solo", .boolV so), ("override", .boolV ov),
   ("passthrough", .boolV pt), ("lock", .boolV lk),
   ("rotationAccumulationMode", .numV 1), ("scaleAccumulationMode", .numV 0),
   ("weight", .numV 1)]

def Scene.animLayerCreate (s : Scene) (m so ov pt lk : Bool) : Scene × String :=
  let layer := s.freshName "AnimLayer"
  ({ s with nodes :=
      { name := layer, typ := "animLayer", parent := none,
        attrs := animLayerInitAttrs m so ov pt lk } :: s.nodes }, layer)

/-- Statements at source lines 336–340: tag the new layer as garbage, set
its weight to 1 and key the weight. -/
def transformSix (s3 : Scene) (newAnimLayer : String) : Scene :=
  let s4 := SIP_TagForGarbage s3 newAnimLayer
  let s5 := s4.setAttrU (newAnimLayer ++ ".weight") (.numV 1)
  { s5 with keys := s5.keys ++ [(newAnimLayer ++ ".weight", none, s5.currentTime)] }

/-- The statements of `SIP_TransformToOrigin` after the layer-creating
branch (source lines 336–345): tag the new layer as garbage, turn it on
(weight 1, keyed), zero the origin's translate and rotate, and key the
origin on the new layer at the start frame. -/
def SIP_TransformToOrigin_tail (s3 : Scene) (origin newAnimLayer : String)
    (startFrame : Int) : Except String Scene := do
  let s6 := transformSix s3 newAnimLayer
  let s7 ← s6.setAttrE (origin ++ ".translate") (.vecV 0 0 0)
  let s8 ← s7.setAttrE (origin ++ ".rotate") (.vecV 0 0 0)
  Except.ok { s8 with keys := s8.keys ++ [(origin, some newAnimLayer, startFrame)] }

/-- The scene `SIP_TransformToOrigin_tail` produces when both `setAttr`
calls on the origin succeed. -/
def transformTailF (s3 : Scene) (origin newAnimLayer : String) (startFrame : Int) : Scene :=
  let s7 := (transformSix s3 newAnimLayer).setAttrU (origin ++ ".translate") (.vecV 0 0 0)
  let s8 := s7.setAttrU (origin ++ ".rotate") (.vecV 0 0 0)
  { s8 with keys := s8.keys ++ [(origin, some newAnimLayer, startFrame)] }

/-- Statements at source lines 320–324: bake the origin's animation over
the frame range (the host errors when the object does not exist), clear
the selection and select the origin. -/
def transformPre (s : Scene) (origin : String) (startFrame endFrame : Int) :
    Except String Scene := do
  let sb ←
    (if s.objExists origin then
      Except.ok { s with bakes := s.bakes ++ [(origin, startFrame, endFrame)] }
     else Except.error ("bakeResults: object not found: " ++ origin))
  let s1 := { sb with selection := [] }
  Except.ok { s1 with selection := s1.selection ++ [origin] }

/-- The scene `transformPre` produces when the origin exists. -/
def preF (s : Scene) (origin : String) (startFrame endFrame : Int) : Scene :=
  { s with bakes := s.bakes ++ [(origin, startFrame, endFrame)], selection := [origin] }

/-- The layer-creating branch (source lines 327–334): an override layer
(with its rotation/scale accumulation modes set) when `zeroOrigin`, an
additive layer otherwise. -/
def transformBranch (s2 : Scene) (zeroOrigin : Bool) : Except String (Scene × String) :=
  if zeroOrigin then do
    let (sa, l) := s2.animLayerCreate false false true true false
    let sc ← sa.setAttrE (l ++ ".rotationAccumulationMode") (.numV 0)
    let sd ← sc.setAttrE (l ++ ".scaleAccumulationMode") (.numV 1)
    Except.ok (sd, l)
  else
    Except.ok (s2.animLayerCreate false false false false false)

/-- The scene-and-layer pair the `zeroOrigin` branch produces. -/
def animLayerZeroF (s2 : Scene) : Scene × String :=
  let (sa, l) := s2.animLayerCreate false false true true false
  ((sa.setAttrU (l ++ ".rotationAccumulationMode") (.numV 0)).setAttrU
    (l ++ ".scaleAccumulationMode") (.numV 1), l)

/-- `SIP_TransformToOrigin` (source lines 319–345): bake the origin's
animation over the frame range, select the origin, create an override
animation layer (killing origin animation) when `zeroOrigin` else an
additive one (shifting it), then run the common tail above. -/
def SIP_TransformToOrigin (s : Scene) (origin : String) (startFrame endFrame : Int)
    (zeroOrigin : Bool) : Except String Scene := do
  let s2 ← transformPre s origin startFrame endFrame
  let (s3, newAnimLayer) ← transformBranch s2 zeroOrigin
  SIP_TransformToOrigin_tail s3 origin newAnimLayer startFrame

/-- Is the node type a transform type (`cmds.ls(tr=True)` lists it)? -/
def isTransformType (t : String) : Bool := t == "transform" || t == "joint"

/-- `cmds.ls(tr=True)`. -/
def Scene.lsTransforms (s : Scene) : List String :=
  (s.nodes.filter (fun nd => isTransformType nd.typ)).map (fun nd => nd.name)

/-- The parent of the named node, if any. -/
def Scene.parentOf (s : Scene) (n : String) : Option String :=
  (s.findNode n).bind (fun nd => nd.parent)

/-- The chain of ancestors of `n`, at most `k` long. -/
def ancChain (s : Scene) : Nat → String → List String
  | 0, _ => []
  | k + 1, n =>
      match s.parentOf n with
      | none => []
      | some p => p :: ancChain s k p

/-- Is `a` a (strict) descendant of `b`? -/
def Scene.isDescOf (s : Scene) (a b : String) : Bool :=
  decide (b ∈ ancChain s s.nodes.length a)

/-- `cmds.delete(n)`: remove the node and all its descendants. -/
def Scene.delete (s : Scene) (n : String) : Scene :=
  { s with nodes := s.nodes.filter (fun nd => !(nd.name == n || s.isDescOf nd.name n)) }

/-- The body of `SIP_ClearGarbage`'s loop: delete the node when it carries
the `deleteMe` attribute. -/
def clearStep (t : Scene) (cur : String) : Scene :=
  if t.objExists (cur ++ ".deleteMe") then t.delete cur else t

/-- `SIP_ClearGarbage` (source lines 71–76): list all transforms once, then
delete each one that carries the `deleteMe` attribute. -/
def SIP_ClearGarbage (s : Scene) : Scene :=
  s.lsTransforms.foldl clearStep s

/-- One closure step: add the children of everything already collected. -/
def descStep (s : Scene) (acc : List String) : List String :=
  acc ++ ((s.nodes.filter (fun nd =>
    (match nd.parent with
     | some p => decide (p ∈ acc)
     | none => false) && !(decide (nd.name ∈ acc)))).map (fun nd => nd.name))

def iterDesc (s : Scene) : Nat → List String → List String
  | 0, acc => acc
  | k + 1, acc => iterDesc s k (descStep s acc)

/-- All (strict) descendants of the named node. -/
def Scene.allDescendants (s : Scene) (n : String) : List String :=
  (iterDesc s s.nodes.length [n]).filter (fun m => m != n)

/-- `cmds.listRelatives(n, allDescendents=True, ...)`, optionally filtered
by node type; the host returns `None` when nothing matches. -/
def Scene.listRelativesAD (s : Scene) (n : String) (typeFilter : Option String) :
    Option (List String) :=
  let ds := s.allDescendants n
  let ds := match typeFilter with
    | some t => ds.filter (fun m => ((s.findNode m).map (fun nd => nd.typ)).getD "" == t)
    | none => ds
  if ds.isEmpty then none else some ds

/-- `cmds.objectType(n)`. -/
def Scene.objectType (s : Scene) (n : String) : Except String String :=
  match s.findNode n with
  | some nd => .ok nd.typ
  | none => .error ("objectType: object " ++ n ++ " does not exist")

/-- `cmds.duplicate(origin)`: copy the node and its subtree; every copy is
renamed with the fresh numeral suffix, and parents inside the subtree are
redirected to the corresponding copies.  Returns the new root's name. -/
def Scene.duplicate (s : Scene) (origin : String) : Scene × String :=
  let sfx := s.freshSuffix
  let members := origin :: s.allDescendants origin
  let copies := s.nodes.filterMap (fun nd =>
    if nd.name ∈ members then
      let newParent : Option String :=
        match nd.parent with
        | some p => if p ∈ members then some (p ++ sfx) else some p
        | none => none
      some { nd with name := nd.name ++ sfx, parent := newParent }
    else none)
  ({ s with nodes := copies ++ s.nodes }, origin ++ sfx)

/-- `cmds.parent(n, world=True)`. -/
def Scene.parentToWorld (s : Scene) (n : String) : Scene :=
  s.mapNode n (fun nd => { nd with parent := none })

/-- `cmds.setAttr(p, lock=False)`: the host errors on a missing plug. -/
def Scene.setAttrLockOff (s : Scene) (p : String) : Except String Scene :=
  if s.objExists p then .ok { s with locks := s.locks.filter (fun q => q != p) }
  else .error ("setAttr: no attribute matches name: " ++ p)

/-- `SIP_UnlockJointTransforms` (source lines 251–265): list the whole
hierarchy under the root, append the root (`None.append` raises when there
are no descendants), and unlock the nine transform plugs of each node. -/
def SIP_UnlockJointTransforms (s : Scene) (root : String) : Except String Scene := do
  let hierarchy ← match s.listRelativesAD root none with
    | some h => Except.ok (h ++ [root])
    | none => Except.error "AttributeError: NoneType object has no attribute append"
  hierarchy.foldlM (fun t cur =>
    ["translateX", "translateY", "translateZ", "rotateX", "rotateY", "rotateZ",
     "scaleX", "scaleY", "scaleZ"].foldlM
      (fun t2 a => t2.setAttrLockOff (cur ++ "." ++ a)) t) s

/-- `SIP_ConnectAttrs` (source lines 272–275): connect the X, Y and Z
plugs of the given transform channel. -/
def SIP_ConnectAttrs (s : Scene) (sourceNode destNode transform : String) :
    Except String Scene := do
  let s ← s.connectAttrE (sourceNode ++ "." ++ transform ++ "X")
    (destNode ++ "." ++ transform ++ "X")
  let s ← s.connectAttrE (sourceNode ++ "." ++ transform ++ "Y")
    (destNode ++ "." ++ transform ++ "Y")
  s.connectAttrE (sourceNode ++ "." ++ transform ++ "Z")
    (destNode ++ "." ++ transform ++ "Z")

/-- `SIP_CopyAndConnectSkeleton` (source lines 283–311): when the origin is
not "Error" and exists, duplicate it, delete every non-joint in the copied
hierarchy, unlock the copy's transforms, pair up original and copied joint
hierarchies and connect translate/rotate/scale, parent the copy to the
world and tag it as garbage; return the copied joint list (the duplicate
root appended last).  Otherwise return the empty list with the scene
untouched. -/
def SIP_CopyAndConnectSkeleton (s : Scene) (origin : String) :
    Except String (Scene × List String) := do
  let newHierarchy : List String := []
  if origin != "Error" && s.objExists origin then do
    let (s1, dupRoot) := s.duplicate origin
    let tempHierarchy ← match s1.listRelativesAD dupRoot none with
      | some h => Except.ok h
      | none => Except.error "TypeError: NoneType object is not iterable"
    let s2 ← tempHierarchy.foldlM (fun t cur => do
      if t.objExists cur then do
        let ty ← t.objectType cur
        if ty != "joint" then pure (t.delete cur) else pure t
      else pure t) s1
    let s3 ← SIP_UnlockJointTransforms s2 dupRoot
    let origHierarchy ← match s3.listRelativesAD origin (some "joint") with
      | some h => Except.ok (h ++ [origin])
      | none => Except.error "AttributeError: NoneType object has no attribute append"
    let newHierarchy ← match s3.listRelativesAD dupRoot (some "joint") with
      | some h => Except.ok (h ++ [dupRoot])
      | none => Except.error "AttributeError: NoneType object has no attribute append"
    let s4 ← (List.range origHierarchy.length).foldlM (fun t index => do
      match origHierarchy.get? index, newHierarchy.get? index with
      | some src, some dst => do
          let t ← SIP_ConnectAttrs t src dst "translate"
          let t ← SIP_ConnectAttrs t src dst "rotate"
          SIP_ConnectAttrs t src dst "scale"
      | _, _ => Except.error "IndexError: list index out of range") s3
    let s5 := s4.parentToWorld dupRoot
    let s6 := SIP_TagForGarbage s5 dupRoot
    pure (s6, newHierarchy)
  else
    pure (s, newHierarchy)

theorem splitDot_eq_none {l : List Char} (h : '.' ∉ l) : splitDot l = none := by
  induction l with
  | nil => rfl
  | cons c t ih =>
      simp only [List.mem_cons, not_or] at h
      simp [splitDot, Ne.symm h.1, ih h.2]

theorem splitDot_append {l r : List Char} (h : '.' ∉ l) :
    splitDot (l ++ '.' :: r) = some (l, r) := by
  induction l with
  | nil => rfl
  | cons c t ih =>
      simp only [List.mem_cons, not_or] at h
      simp [splitDot, Ne.symm h.1, ih h.2]

theorem string_eq_of_data {s t : String} (h : s.data = t.data) : s = t := by
  cases s
  cases t
  exact congrArg String.mk (by simpa using h)

theorem noDot_mem {n : String} (hn : noDot n) : '.' ∉ n.data :=
  of_decide_eq_true hn

theorem parsePath_noDot {n : String} (hn : noDot n) : parsePath n = (n, none) := by
  simp [parsePath, splitDot_eq_none (noDot_mem hn)]

theorem parsePath_concat {n a : String} {t : List Char} (hn : noDot n)
    (ha : a.data = '.' :: t) : parsePath (n ++ a) = (n, some ⟨t⟩) := by
  have hd : (n ++ a).data = n.data ++ '.' :: t := by
    rw [String.data_append, ha]
  simp only [parsePath, hd, splitDot_append (noDot_mem hn)]

theorem findNode_mapNode (s : Scene) (m n : String) (f : SceneNode → SceneNode)
    (hf : ∀ nd, (f nd).name = nd.name) :
    (s.mapNode m f).findNode n =
      Option.map (fun nd => if nd.name = m then f nd else nd) (s.findNode n) := by
  unfold Scene.findNode Scene.mapNode
  rw [List.find?_map]
  have hp : ((fun nd => decide (nd.name = n)) ∘ fun nd => if nd.name = m then f nd else nd)
      = fun nd => decide (nd.name = n) := by
    funext nd
    by_cases h : nd.name = m <;> simp [Function.comp, h, hf]
  rw [hp]

theorem objExists_name {s : Scene} {n : String} (hn : noDot n) :
    s.objExists n = (s.findNode n).isSome := by
  simp [Scene.objExists, parsePath_noDot hn]

theorem objExists_attr {s : Scene} {n a : String} {t : List Char} (hn : noDot n)
    (ha : a.data = '.' :: t) :
    s.objExists (n ++ a) = ((s.findNode n).map (fun nd => nd.hasAttr ⟨t⟩)).getD false := by
  unfold Scene.objExists
  rw [parsePath_concat hn ha]
  cases hfn : s.findNode n <;> simp [hfn]

theorem getAttr?_of_parse {s : Scene} {p n a : String} (hp : parsePath p = (n, some a)) :
    s.getAttr? p = (s.findNode n).bind (fun nd => lookupA nd.attrs a) := by
  unfold Scene.getAttr?
  rw [hp]
  cases hfn : s.findNode n <;> simp [hfn]

theorem lookupA_setA_self (l : List (String × AttrValue)) (a : String) (v : AttrValue) :
    lookupA (setA l a v) a = some v := by
  induction l with
  | nil => simp [setA, lookupA]
  | cons h t ih =>
      by_cases hb : h.1 = a
      · simp [setA, hb, lookupA]
      · simp [setA, hb, lookupA, ih]

theorem findNode_name {s : Scene} {n : String} {nd : SceneNode}
    (h : s.findNode n = some nd) : nd.name = n := by
  have := List.find?_some h
  simpa using this

theorem findNode_addAttr (s : Scene) (n node attr : String) (v : AttrValue) :
    (s.addAttr node attr v).findNode n =
      Option.map (fun nd => if nd.name = node then { nd with attrs := setA nd.attrs attr v } else nd)
        (s.findNode n) := by
  exact findNode_mapNode s node n _ (fun nd => by by_cases h : nd.name = node <;> simp [h])

theorem findNode_setAttrU (s : Scene) (n m a : String) (v : AttrValue) {p : String}
    (hp : parsePath p = (m, some a)) :
    (s.setAttrU p v).findNode n =
      Option.map (fun nd => if nd.name = m then
          (if nd.hasAttr a then { nd with attrs := setA nd.attrs a v } else nd) else nd)
        (s.findNode n) := by
  unfold Scene.setAttrU
  rw [hp]
  exact findNode_mapNode s m n _ (fun nd => by
    by_cases h : nd.hasAttr a <;> simp [h])

theorem string_mk_data (s : String) : (⟨s.data⟩ : String) = s := rfl

/-- After the add-then-set sequence used by the bool tag functions, the
attribute exists on the node and reads back `True`. -/
theorem boolTag_step (s : Scene) (node a attr : String)
    (hn : noDot node) (ha : a.data = '.' :: attr.data)
    (hex : s.objExists node = true) :
    ((s.addAttr node attr (.boolV false)).setAttrU (node ++ a) (.boolV true)).objExists (node ++ a) = true
    ∧ ((s.addAttr node attr (.boolV false)).setAttrU (node ++ a) (.boolV true)).objExists node = true
    ∧ ((s.addAttr node attr (.boolV false)).setAttrU (node ++ a) (.boolV true)).getAttrB (node ++ a) = true := by
  rw [objExists_name hn] at hex
  obtain ⟨nd0, h0⟩ := Option.isSome_iff_exists.mp hex
  have hname : nd0.name = node := findNode_name h0
  have h1 : (s.addAttr node attr (.boolV false)).findNode node =
      some { nd0 with attrs := setA nd0.attrs attr (.boolV false) } := by
    rw [findNode_addAttr, h0]
    simp [hname]
  have hp : parsePath (node ++ a) = (node, some attr) := parsePath_concat hn ha
  have h2 : ((s.addAttr node attr (.boolV false)).setAttrU (node ++ a) (.boolV true)).findNode node =
      some { nd0 with attrs := setA (setA nd0.attrs attr (.boolV false)) attr (.boolV true) } := by
    rw [findNode_setAttrU _ _ _ _ _ hp, h1]
    simp [hname, SceneNode.hasAttr, lookupA_setA_self]
  refine ⟨?_, ?_, ?_⟩
  · rw [objExists_attr hn ha, h2]
    simp [SceneNode.hasAttr, lookupA_setA_self]
  · rw [objExists_name hn, h2]
    rfl
  · unfold Scene.getAttrB
    rw [getAttr?_of_parse hp, h2]
    simp [lookupA_setA_self, truthy]

/-- After the single add used by the message tag functions, the attribute
exists on the node. -/
theorem msgTag_step (s : Scene) (node a attr : String)
    (hn : noDot node) (ha : a.data = '.' :: attr.data)
    (hex : s.objExists node = true) :
    (s.addAttr node attr .messageV).objExists (node ++ a) = true
    ∧ (s.addAttr node attr .messageV).objExists node = true := by
  rw [objExists_name hn] at hex
  obtain ⟨nd0, h0⟩ := Option.isSome_iff_exists.mp hex
  have hname : nd0.name = node := findNode_name h0
  have h1 : (s.addAttr node attr .messageV).findNode node =
      some { nd0 with attrs := setA nd0.attrs attr .messageV } := by
    rw [findNode_addAttr, h0]
    simp [hname]
  constructor
  · rw [objExists_attr hn ha, h1]
    simp [SceneNode.hasAttr, lookupA_setA_self]
  · rw [objExists_name hn, h1]
    rfl

theorem dataOrigin : (".origin" : String).data = '.' :: ("origin" : String).data := by decide

theorem dataExportMeshes :
    (".exportMeshes" : String).data = '.' :: ("exportMeshes" : String).data := by decide

theorem dataDeleteMe : (".deleteMe" : String).data = '.' :: ("deleteMe" : String).data := by decide

theorem dataExportNode : (".exportNode" : String).data = '.' :: ("exportNode" : String).data := by decide

theorem tagOrigin_no_node {s : Scene} {node : String} (h : s.objExists node = false) :
    SIP_TagForOrigin s node = s := by
  unfold SIP_TagForOrigin
  simp [h]

theorem tagOrigin_attr_present {s : Scene} {node : String}
    (h : s.objExists (node ++ ".origin") = true) : SIP_TagForOrigin s node = s := by
  unfold SIP_TagForOrigin
  simp [h]

theorem tagOrigin_guard {s : Scene} {node : String} (hex : s.objExists node = true)
    (h : s.objExists (node ++ ".origin") = false) :
    SIP_TagForOrigin s node =
      (s.addAttr node "origin" (.boolV false)).setAttrU (node ++ ".origin") (.boolV true) := by
  unfold SIP_TagForOrigin
  simp [hex, h]

theorem tagMesh_no_node {s : Scene} {node : String} (h : s.objExists node = false) :
    SIP_TagForMeshExport s node = s := by
  unfold SIP_TagForMeshExport
  simp [h]

theorem tagMesh_attr_present {s : Scene} {node : String}
    (h : s.objExists (node ++ ".exportMeshes") = true) : SIP_TagForMeshExport s node = s := by
  unfold SIP_TagForMeshExport
  simp [h]

theorem tagMesh_guard {s : Scene} {node : String} (hex : s.objExists node = true)
    (h : s.objExists (node ++ ".exportMeshes") = false) :
    SIP_TagForMeshExport s node = s.addAttr node "exportMeshes" .messageV := by
  unfold SIP_TagForMeshExport
  simp [hex, h]

theorem tagGarbage_no_node {s : Scene} {node : String} (h : s.objExists node = false) :
    SIP_TagForGarbage s node = s := by
  unfold SIP_TagForGarbage
  simp [h]

theorem tagGarbage_attr_present {s : Scene} {node : String}
    (h : s.objExists (node ++ ".deleteMe") = true) : SIP_TagForGarbage s node = s := by
  unfold SIP_TagForGarbage
  simp [h]

theorem tagGarbage_guard {s : Scene} {node : String} (hex : s.objExists node = true)
    (h : s.objExists (node ++ ".deleteMe") = false) :
    SIP_TagForGarbage s node =
      (s.addAttr node "deleteMe" (.boolV false)).setAttrU (node ++ ".deleteMe") (.boolV true) := by
  unfold SIP_TagForGarbage
  simp [hex, h]

theorem tagOrigin_idem (s : Scene) (node : String) (hn : noDot node) :
    SIP_TagForOrigin (SIP_TagForOrigin s node) node = SIP_TagForOrigin s node := by
  by_cases hex : s.objExists node = true
  · by_cases hO : s.objExists (node ++ ".origin") = true
    · rw [tagOrigin_attr_present hO, tagOrigin_attr_present hO]
    · rw [tagOrigin_guard hex (by simpa using hO)]
      have hstep := boolTag_step s node ".origin" "origin" hn dataOrigin hex
      exact tagOrigin_attr_present hstep.1
  · have h0 : SIP_TagForOrigin s node = s := tagOrigin_no_node (by simpa using hex)
    rw [h0, h0]

theorem tagMesh_idem (s : Scene) (node : String) (hn : noDot node) :
    SIP_TagForMeshExport (SIP_TagForMeshExport s node) node = SIP_TagForMeshExport s node := by
  by_cases hex : s.objExists node = true
  · by_cases hO : s.objExists (node ++ ".exportMeshes") = true
    · rw [tagMesh_attr_present hO, tagMesh_attr_present hO]
    · rw [tagMesh_guard hex (by simpa using hO)]
      have hstep := msgTag_step s node ".exportMeshes" "exportMeshes" hn dataExportMeshes hex
      exact tagMesh_attr_present hstep.1
  · have h0 : SIP_TagForMeshExport s node = s := tagMesh_no_node (by simpa using hex)
    rw [h0, h0]

theorem tagGarbage_idem (s : Scene) (node : String) (hn : noDot node) :
    SIP_TagForGarbage (SIP_TagForGarbage s node) node = SIP_TagForGarbage s node := by
  by_cases hex : s.objExists node = true
  · by_cases hO : s.objExists (node ++ ".deleteMe") = true
    · rw [tagGarbage_attr_present hO, tagGarbage_attr_present hO]
    · rw [tagGarbage_guard hex (by simpa using hO)]
      have hstep := boolTag_step s node ".deleteMe" "deleteMe" hn dataDeleteMe hex
      exact tagGarbage_attr_present hstep.1
  · have h0 : SIP_TagForGarbage s node = s := tagGarbage_no_node (by simpa using hex)
    rw [h0, h0]

/-- C5: `SIP_TagForOrigin`, `SIP_TagForMeshExport` and `SIP_TagForGarbage`
add their custom attribute (setting bool tags to `True`) only when the
attribute is absent; calling the same tag function twice on a node leaves
the scene in the same state as calling it once; and calling it on a
nonexistent node changes nothing. -/
theorem SIP_tag_functions_idempotent (s : Scene) (node : String) (hn : noDot node) :
    (SIP_TagForOrigin (SIP_TagForOrigin s node) node = SIP_TagForOrigin s node)
    ∧ (SIP_TagForMeshExport (SIP_TagForMeshExport s node) node = SIP_TagForMeshExport s node)
    ∧ (SIP_TagForGarbage (SIP_TagForGarbage s node) node = SIP_TagForGarbage s node)
    ∧ (s.objExists node = false →
        SIP_TagForOrigin s node = s ∧ SIP_TagForMeshExport s node = s ∧ SIP_TagForGarbage s node = s)
    ∧ (s.objExists (node ++ ".origin") = true → SIP_TagForOrigin s node = s)
    ∧ (s.objExists (node ++ ".exportMeshes") = true → SIP_TagForMeshExport s node = s)
    ∧ (s.objExists (node ++ ".deleteMe") = true → SIP_TagForGarbage s node = s)
    ∧ (s.objExists node = true → s.objExists (node ++ ".origin") = false →
        (SIP_TagForOrigin s node).objExists (node ++ ".origin") = true
        ∧ (SIP_TagForOrigin s node).getAttrB (node ++ ".origin") = true)
    ∧ (s.objExists node = true → s.objExists (node ++ ".exportMeshes") = false →
        (SIP_TagForMeshExport s node).objExists (node ++ ".exportMeshes") = true)
    ∧ (s.objExists node = true → s.objExists (node ++ ".deleteMe") = false →
        (SIP_TagForGarbage s node).objExists (node ++ ".deleteMe") = true
        ∧ (SIP_TagForGarbage s node).getAttrB (node ++ ".deleteMe") = true) := by
  refine ⟨tagOrigin_idem s node hn, tagMesh_idem s node hn, tagGarbage_idem s node hn,
    fun h => ⟨tagOrigin_no_node h, tagMesh_no_node h, tagGarbage_no_node h⟩, ?_, ?_, ?_, ?_, ?_, ?_⟩
  · exact tagOrigin_attr_present
  · exact tagMesh_attr_present
  · exact tagGarbage_attr_present
  · intro hex hO
    rw [tagOrigin_guard hex hO]
    have hstep := boolTag_step s node ".origin" "origin" hn dataOrigin hex
    exact ⟨hstep.1, hstep.2.2⟩
  · intro hex hO
    rw [tagMesh_guard hex hO]
    exact (msgTag_step s node ".exportMeshes" "exportMeshes" hn dataExportMeshes hex).1
  · intro hex hO
    rw [tagGarbage_guard hex hO]
    have hstep := boolTag_step s node ".deleteMe" "deleteMe" hn dataDeleteMe hex
    exact ⟨hstep.1, hstep.2.2⟩

theorem SIP_tag_functions_idempotent_witness :
    noDot "pelvis" = true ∧
    SIP_TagForOrigin (SIP_TagForOrigin (mkScene [jointNode "pelvis" []]) "pelvis") "pelvis"
      = SIP_TagForOrigin (mkScene [jointNode "pelvis" []]) "pelvis" :=
  ⟨by decide, (SIP_tag_functions_idempotent (mkScene [jointNode "pelvis" []]) "pelvis" (by decide)).1⟩

/-- C2 counterexample: in a scene whose only joint is literally named
"Error" and carries a true `origin` attribute, `SIP_ReturnOrigin` returns
"Error" even though a joint with a true `origin` attribute exists, so
"returns Error exactly when no such joint exists" fails as stated.  (The
source comments presume "Error" is not a joint name; the claim drops that
presumption.) -/
theorem SIP_ReturnOrigin_error_name_cex :
    SIP_ReturnOrigin (mkScene [jointNode "Error" [("origin", AttrValue.boolV true)]]) "" = "Error"
    ∧ ∃ j ∈ lsJointsMaybeNs (mkScene [jointNode "Error" [("origin", AttrValue.boolV true)]]) "",
        originTest (mkScene [jointNode "Error" [("origin", AttrValue.boolV true)]]) j = true := by
  refine ⟨by decide, ⟨"Error", by decide, by decide⟩⟩

/-- C2 (amended): over the joints listed for the namespace (namespace-
filtered when `ns` is non-empty, all joints otherwise), and provided no
listed joint is itself named "Error" (the source's stated presumption),
`SIP_ReturnOrigin` returns a listed joint whose `origin` attribute exists
and is true whenever its result is not "Error", and returns "Error" exactly
when no listed joint has a true `origin` attribute. -/
theorem SIP_ReturnOrigin_spec (s : Scene) (ns : String)
    (hE : "Error" ∉ lsJointsMaybeNs s ns) :
    (SIP_ReturnOrigin s ns = "Error" ↔ ∀ j ∈ lsJointsMaybeNs s ns, originTest s j = false)
    ∧ (SIP_ReturnOrigin s ns ≠ "Error" →
        SIP_ReturnOrigin s ns ∈ lsJointsMaybeNs s ns
        ∧ originTest s (SIP_ReturnOrigin s ns) = true) := by
  unfold SIP_ReturnOrigin
  cases hf : (lsJointsMaybeNs s ns).find? (originTest s) with
  | none =>
      simp only [hf]
      rw [List.find?_eq_none] at hf
      constructor
      · constructor
        · intro _ j hj
          simpa using hf j hj
        · intro _
          trivial
      · intro h
        exact absurd rfl h
  | some j0 =>
      have hmem : j0 ∈ lsJointsMaybeNs s ns := List.mem_of_find?_eq_some hf
      have htest : originTest s j0 = true := List.find?_some hf
      have hne : j0 ≠ "Error" := fun h => hE (h ▸ hmem)
      simp only [hf]
      constructor
      · constructor
        · intro h
          exact absurd h hne
        · intro hall
          have := hall j0 hmem
          rw [htest] at this
          exact absurd this (by simp)
      · intro _
        exact ⟨hmem, htest⟩

theorem SIP_ReturnOrigin_spec_witness :
    SIP_ReturnOrigin (mkScene [jointNode "hips" [("origin", AttrValue.boolV true)]]) ""
      ∈ lsJointsMaybeNs (mkScene [jointNode "hips" [("origin", AttrValue.boolV true)]]) ""
    ∧ originTest (mkScene [jointNode "hips" [("origin", AttrValue.boolV true)]])
        (SIP_ReturnOrigin (mkScene [jointNode "hips" [("origin", AttrValue.boolV true)]]) "") = true :=
  (SIP_ReturnOrigin_spec (mkScene [jointNode "hips" [("origin", AttrValue.boolV true)]]) ""
    (by decide)).2 (by decide)

theorem digitChar_ne_dot (k : Nat) : digitChar k ≠ '.' := by
  unfold digitChar
  split <;> decide

theorem natDigitsAux_no_dot : ∀ (fuel n : Nat), '.' ∉ natDigitsAux fuel n := by
  intro fuel
  induction fuel with
  | zero => intro n h; cases h
  | succ fuel ih =>
      intro n
      unfold natDigitsAux
      split
      · intro hmem
        rw [List.mem_singleton] at hmem
        exact digitChar_ne_dot n hmem.symm
      · intro hmem
        rcases List.mem_append.mp hmem with h | h
        · exact ih (n / 10) h
        · rw [List.mem_singleton] at h
          exact digitChar_ne_dot (n % 10) h.symm

theorem natDigits_no_dot (n : Nat) : '.' ∉ natDigits n := natDigitsAux_no_dot (n + 1) n

theorem natDigitsAux_length_ge (m : Nat) :
    ∀ (fuel n : Nat), n < fuel → 10 ^ m ≤ n → m + 1 ≤ (natDigitsAux fuel n).length := by
  induction m with
  | zero =>
      intro fuel n hf _
      obtain ⟨fuel', rfl⟩ : ∃ fuel', fuel = fuel' + 1 := ⟨fuel - 1, by omega⟩
      unfold natDigitsAux
      split
      · simp
      · simp
  | succ m ih =>
      intro fuel n hf hle
      have h10 : ¬(n < 10) := by
        have : 10 ≤ 10 ^ (m + 1) := by
          calc 10 = 10 ^ 1 := by norm_num
          _ ≤ 10 ^ (m + 1) := Nat.pow_le_pow_right (by omega) (by omega)
        omega
      obtain ⟨fuel', rfl⟩ : ∃ fuel', fuel = fuel' + 1 := ⟨fuel - 1, by omega⟩
      unfold natDigitsAux
      rw [if_neg h10]
      have hdiv : 10 ^ m ≤ n / 10 := by
        rw [Nat.le_div_iff_mul_le (by omega)]
        calc 10 ^ m * 10 = 10 ^ (m + 1) := by ring
        _ ≤ n := hle
      have hlt : n / 10 < fuel' := by
        have := Nat.div_lt_self (show 0 < n by omega) (show 1 < 10 by omega)
        omega
      have := ih fuel' (n / 10) hlt hdiv
      simp only [List.length_append, List.length_singleton]
      omega

theorem natDigits_length_ge (m : Nat) :
    ∀ n : Nat, 10 ^ m ≤ n → m + 1 ≤ (natDigits n).length := by
  intro n hle
  exact natDigitsAux_length_ge m (n + 1) n (by omega) hle

theorem foldr_maxNameLen_ge {l : List SceneNode} {nd : SceneNode} (h : nd ∈ l) :
    nd.name.data.length ≤ l.foldr (fun nd acc => max nd.name.data.length acc) 0 := by
  induction l with
  | nil => cases h
  | cons hd tl ih =>
      rcases List.mem_cons.mp h with h | h
      · subst h
        simp only [List.foldr_cons]
        exact Nat.le_max_left _ _
      · simp only [List.foldr_cons]
        exact le_trans (ih h) (Nat.le_max_right _ _)

theorem maxNameLen_ge {s : Scene} {nd : SceneNode} (h : nd ∈ s.nodes) :
    nd.name.data.length ≤ s.maxNameLen :=
  foldr_maxNameLen_ge h

/-- The generated name is longer than every name in the scene, so it is
fresh. -/
theorem freshName_ne {s : Scene} {nd : SceneNode} (base : String) (h : nd ∈ s.nodes) :
    nd.name ≠ s.freshName base := by
  intro heq
  have hlen : nd.name.data.length = (s.freshName base).data.length := by rw [heq]
  have h1 : (s.freshName base).data.length =
      base.data.length + (natDigits (10 ^ s.maxNameLen)).length := by
    unfold Scene.freshName Scene.freshSuffix
    rw [String.data_append]
    simp
  have h2 : s.maxNameLen + 1 ≤ (natDigits (10 ^ s.maxNameLen)).length :=
    natDigits_length_ge s.maxNameLen _ le_rfl
  have h3 := maxNameLen_ge h
  omega

theorem findNode_freshName (s : Scene) (base : String) :
    s.findNode (s.freshName base) = none := by
  unfold Scene.findNode
  rw [List.find?_eq_none]
  intro nd hmem
  simpa using freshName_ne base hmem

theorem noDot_freshName {s : Scene} {base : String} (hb : noDot base) :
    noDot (s.freshName base) := by
  unfold Scene.freshName Scene.freshSuffix
  rw [noDot] at hb ⊢
  rw [decide_eq_true_iff] at hb ⊢
  rw [String.data_append]
  intro hmem
  rcases List.mem_append.mp hmem with h | h
  · exact hb h
  · exact natDigits_no_dot _ h

theorem addStep_findNode {s : Scene} {n : String} {nd : SceneNode}
    (h : s.findNode n = some nd) (hname : nd.name = n) (a : String) (v : AttrValue) :
    (if !(s.attributeQueryExists a n) then s.addAttr n a v else s).findNode n =
      some (nodeAddAttr nd a v) := by
  unfold Scene.attributeQueryExists nodeAddAttr
  rw [h]
  by_cases hH : nd.hasAttr a
  · rw [if_pos hH]
    simp only [hH, Bool.not_true, Bool.false_eq_true, if_false]
    exact h
  · rw [if_neg hH]
    simp only [hH, Bool.not_false, if_true]
    rw [findNode_addAttr, h]
    simp [hname]

theorem foldl_addAttrs_findNode (l : List (String × AttrValue)) (s : Scene) (n : String)
    (nd : SceneNode) (h : s.findNode n = some nd) (hname : nd.name = n) :
    (l.foldl
      (fun t p => if !(t.attributeQueryExists p.1 n) then t.addAttr n p.1 p.2 else t)
      s).findNode n =
      some (l.foldl (fun m p => nodeAddAttr m p.1 p.2) nd) := by
  induction l generalizing s nd with
  | nil => simpa using h
  | cons hd tl ih =>
      simp only [List.foldl_cons]
      have hstep := addStep_findNode h hname hd.1 hd.2
      have hname' : (nodeAddAttr nd hd.1 hd.2).name = n := by
        unfold nodeAddAttr
        by_cases hH : nd.hasAttr hd.1 <;> simp [hH, hname]
      exact ih _ _ hstep hname'

theorem addFBXNodeAttrs_findNode {s : Scene} {n : String} {nd : SceneNode}
    (h : s.findNode n = some nd) (hname : nd.name = n) :
    (SIP_AddFBXNodeAttrs s n).findNode n =
      some (fbxAttrSpec.foldl (fun m p => nodeAddAttr m p.1 p.2) nd) :=
  foldl_addAttrs_findNode fbxAttrSpec s n nd h hname

theorem noDot_append {a b : String} (ha : noDot a) (hb : noDot b) : noDot (a ++ b) := by
  rw [noDot, decide_eq_true_iff] at ha hb ⊢
  rw [String.data_append]
  intro hmem
  rcases List.mem_append.mp hmem with h | h
  · exact ha h
  · exact hb h

/-- C6: `SIP_CreateFBXExportNode(characterName)` returns a newly created
transform node (it did not exist before, it exists afterwards) that
possesses all ten export-configuration attributes, with its `export`
attribute set to true. -/
theorem SIP_CreateFBXExportNode_spec (s : Scene) (characterName : String)
    (hc : noDot characterName) :
    s.objExists (SIP_CreateFBXExportNode s characterName).2 = false
    ∧ (SIP_CreateFBXExportNode s characterName).1.objExists
        (SIP_CreateFBXExportNode s characterName).2 = true
    ∧ ((SIP_CreateFBXExportNode s characterName).1.findNode
        (SIP_CreateFBXExportNode s characterName).2).map SceneNode.typ = some "transform"
    ∧ (∀ a ∈ ["export", "moveToOrigin", "zeroOrigin", "exportName", "useSubRange",
        "startFrame", "endFrame", "exportMeshes", "exportNode", "animLayers"],
        (SIP_CreateFBXExportNode s characterName).1.attributeQueryExists a
          (SIP_CreateFBXExportNode s characterName).2 = true)
    ∧ (SIP_CreateFBXExportNode s characterName).1.getAttr?
        ((SIP_CreateFBXExportNode s characterName).2 ++ ".export") = some (.boolV true) := by
  have hbase : noDot (characterName ++ "FBXExportNode") := noDot_append hc (by decide)
  set n := s.freshName (characterName ++ "FBXExportNode") with hn
  have hnd : noDot n := noDot_freshName hbase
  have hfresh : s.findNode n = none := findNode_freshName s _
  have hres2 : (SIP_CreateFBXExportNode s characterName).2 = n := rfl
  have hfind1 : (s.createNode n "transform").findNode n =
      some { name := n, typ := "transform", parent := none, attrs := [] } := by
    unfold Scene.createNode Scene.findNode
    simp [List.find?_cons]
  have hfind2 := addFBXNodeAttrs_findNode hfind1 rfl
  have hrec : fbxAttrSpec.foldl (fun m p => nodeAddAttr m p.1 p.2)
      { name := n, typ := "transform", parent := none, attrs := [] } =
      { name := n, typ := "transform", parent := none, attrs := fbxAttrSpec } := by
    simp [fbxAttrSpec, nodeAddAttr, SceneNode.hasAttr, lookupA, setA]
  rw [hrec] at hfind2
  have hp : parsePath (n ++ ".export") = (n, some "export") :=
    parsePath_concat hnd (by decide)
  have hfind3 : (SIP_CreateFBXExportNode s characterName).1.findNode n =
      some { name := n, typ := "transform", parent := none,
             attrs := setA fbxAttrSpec "export" (.boolV true) } := by
    show ((SIP_AddFBXNodeAttrs (s.createNode n "transform") n).setAttrU
        (n ++ ".export") (.boolV true)).findNode n = _
    rw [findNode_setAttrU _ _ _ _ _ hp, hfind2]
    simp [SceneNode.hasAttr, fbxAttrSpec, lookupA, setA]
  rw [hres2]
  refine ⟨?_, ?_, ?_, ?_, ?_⟩
  · rw [objExists_name hnd, hfresh]
    rfl
  · rw [objExists_name hnd, hfind3]
    rfl
  · rw [hfind3]
    rfl
  · intro a hmem
    fin_cases hmem <;>
      (unfold Scene.attributeQueryExists
       rw [hfind3]
       simp [SceneNode.hasAttr, fbxAttrSpec, setA, lookupA])
  · rw [getAttr?_of_parse hp, hfind3]
    simp [fbxAttrSpec, setA, lookupA]

theorem SIP_CreateFBXExportNode_spec_witness :
    (mkScene []).objExists (SIP_CreateFBXExportNode (mkScene []) "char").2 = false
    ∧ (SIP_CreateFBXExportNode (mkScene []) "char").1.objExists
        (SIP_CreateFBXExportNode (mkScene []) "char").2 = true :=
  ⟨(SIP_CreateFBXExportNode_spec (mkScene []) "char" (by decide)).1,
   (SIP_CreateFBXExportNode_spec (mkScene []) "char" (by decide)).2.1⟩

/-- C9: when the export node's `exportName` holds a non-empty string,
`SIP_ExportFBX` writes exactly one file, at the workspace root concatenated
with that string, and changes nothing else; when the string is empty (a
fresh string attribute reads as empty), it writes no file and appends
exactly one warning naming the export node. -/
theorem SIP_ExportFBX_spec (s : Scene) (exportNode f : String)
    (h : s.getAttr? (exportNode ++ ".exportName") = some (.strV f)) :
    (f ≠ "" →
      SIP_ExportFBX s exportNode = .ok { s with files := s.files ++ [s.workspaceRoot ++ f] })
    ∧ (f = "" →
      SIP_ExportFBX s exportNode = .ok
        { s with warnings :=
            s.warnings ++ ["No Valid Export Filename for Export Node " ++ exportNode ++ "\n"] }) := by
  unfold SIP_ExportFBX
  rw [h]
  constructor
  · intro hf
    have ht : (f != "") = true := by simpa using hf
    simp [truthy, ht, Scene.exportFile]
  · intro hf
    subst hf
    simp [truthy, Scene.warn]

theorem SIP_ExportFBX_spec_witness :
    SIP_ExportFBX (mkScene [transformNode "exp" [("exportName", .strV "walk.fbx")]]) "exp"
      = .ok { mkScene [transformNode "exp" [("exportName", .strV "walk.fbx")]] with
              files := ["C:/project/walk.fbx"] } :=
  (SIP_ExportFBX_spec (mkScene [transformNode "exp" [("exportName", .strV "walk.fbx")]])
    "exp" "walk.fbx" (by decide)).1 (by decide)

/-- C3 is false of the code: in a scene whose playback range is [1, 24] and
whose export node has `useSubRange` false, the exported range is (1, 1) —
both ends read the playback *minimum* (line 477 queries `minTime` for the
end frame) — not (1, 24) as the claim and the in-code help text ("the
animation will use the frame range of the file") state.  The sub-range
branch itself behaves as claimed. -/
theorem SIP_ExportFBXAnimation_frameRange_bug :
    SIP_ExportFBXAnimation_frameRange (mkScene [transformNode "exp" fbxAttrSpec]) "exp"
      = .ok (AttrValue.numV 1, AttrValue.numV 1)
    ∧ (mkScene [transformNode "exp" fbxAttrSpec]).playbackMin = 1
    ∧ (mkScene [transformNode "exp" fbxAttrSpec]).playbackMax = 24
    ∧ SIP_ExportFBXAnimation_frameRange
        (mkScene [transformNode "exp"
          (setA (setA (setA fbxAttrSpec "useSubRange" (.boolV true)) "startFrame" (.numV 5))
            "endFrame" (.numV 12))]) "exp"
      = .ok (AttrValue.numV 5, AttrValue.numV 12) := by
  refine ⟨rfl, rfl, rfl, rfl⟩

/-- C4 is false of the code on its add-the-missing-attribute path: with both
nodes existing and the export node lacking the `exportNode` attribute, the
call raises `NameError` (line 136 references the undefined name
`fbxExportNode` instead of `exportNode`) and no connection is made.  When
the attribute is already present on the export node the intended connection
is established, and when either node is missing the scene is unchanged. -/
theorem SIP_ConnectFBXExportNodeToOrigin_nameError :
    SIP_ConnectFBXExportNodeToOrigin
      (mkScene [jointNode "root" [], transformNode "exp" []]) "exp" "root"
      = .error "NameError: name fbxExportNode is not defined"
    ∧ SIP_ConnectFBXExportNodeToOrigin
        (mkScene [jointNode "root" [("exportNode", .messageV)],
                  transformNode "exp" [("exportNode", .messageV)]]) "exp" "root"
      = .ok { mkScene [jointNode "root" [("exportNode", .messageV)],
                       transformNode "exp" [("exportNode", .messageV)]] with
              connections := [("root.exportNode", "exp.exportNode")] }
    ∧ SIP_ConnectFBXExportNodeToOrigin (mkScene [jointNode "root" []]) "exp" "root"
      = .ok (mkScene [jointNode "root" []]) := by
  refine ⟨rfl, rfl, rfl⟩

/-- C1 is false of the code; the round trip never restores anything.
Recording fails: on an export node that has the `animLayers` attribute,
`SIP_SetAnimLayerSettings` passes `exportNode + "animLayers"` (no `"."`) to
`setAttr`, which raises.  Restoring is inert: even when a recorded settings
string for layer1 (mute = False, solo = False) is stored in
`exp.animLayers` and layer1's states have since been changed to true,
`SIP_SetAnimLayersFromSettings` returns the scene unchanged — its guard
demands that the `animLayers` attribute *not* exist — so layer1's mute
state keeps the changed value instead of the recorded one. -/
theorem SIP_animLayer_roundTrip_bug :
    SIP_SetAnimLayerSettings
        (mkScene [transformNode "exp" fbxAttrSpec, animLayerNode "layer1" false false]) "exp"
      = .error "setAttr: no attribute matches name: expanimLayers"
    ∧ SIP_SetAnimLayersFromSettings
        (mkScene [transformNode "exp"
            (setA fbxAttrSpec "animLayers" (.strV "layer1,  mute = False, solo = False;")),
          animLayerNode "layer1" true true]) "exp"
      = .ok (mkScene [transformNode "exp"
            (setA fbxAttrSpec "animLayers" (.strV "layer1,  mute = False, solo = False;")),
          animLayerNode "layer1" true true])
    ∧ (mkScene [transformNode "exp"
            (setA fbxAttrSpec "animLayers" (.strV "layer1,  mute = False, solo = False;")),
          animLayerNode "layer1" true true]).getAttrB "layer1.mute" = true := by
  refine ⟨rfl, rfl, rfl⟩

theorem lookupA_setA_ne (l : List (String × AttrValue)) {a b : String} (v : AttrValue)
    (h : b ≠ a) : lookupA (setA l b v) a = lookupA l a := by
  induction l with
  | nil => simp [setA, lookupA, h]
  | cons hd tl ih =>
      by_cases hb : hd.1 = b
      · simp [setA, hb, lookupA, h, hb.symm ▸ h]
      · simp only [setA]
        rw [if_neg (by simpa using hb)]
        by_cases ha : hd.1 = a
        · simp [lookupA, ha]
        · simp only [lookupA]
          rw [if_neg (by simpa using ha), if_neg (by simpa using ha)]
          exact ih

theorem findNode_prepend (s : Scene) (nd : SceneNode) (n : String) (conns : List (String × String)) :
    ({ s with nodes := nd :: s.nodes, connections := conns } : Scene).findNode n =
      if nd.name = n then some nd else s.findNode n := by
  unfold Scene.findNode
  by_cases h : nd.name = n <;> simp [List.find?_cons, h]

theorem findNode_mapNode_self {s : Scene} {m : String} {nd : SceneNode}
    (f : SceneNode → SceneNode) (h : s.findNode m = some nd)
    (hf : ∀ x, (f x).name = x.name) :
    (s.mapNode m f).findNode m = some (f nd) := by
  rw [findNode_mapNode s m m f hf, h]
  simp [findNode_name h]

theorem findNode_mapNode_other {s : Scene} {m n : String}
    (f : SceneNode → SceneNode) (hf : ∀ x, (f x).name = x.name) (hne : n ≠ m) :
    (s.mapNode m f).findNode n = s.findNode n := by
  rw [findNode_mapNode s m n f hf]
  cases hfn : s.findNode n with
  | none => rfl
  | some nd =>
      have := findNode_name hfn
      simp [this, hne]

theorem filtmap_map_pres {l : List SceneNode} {g : SceneNode → SceneNode} {t : String}
    (hg : ∀ nd, (g nd).name = nd.name ∧ (g nd).typ = nd.typ) :
    ((l.map g).filter (fun nd => nd.typ = t)).map (fun nd => nd.name)
      = (l.filter (fun nd => nd.typ = t)).map (fun nd => nd.name) := by
  induction l with
  | nil => rfl
  | cons hd tl ih =>
      simp only [List.map_cons, List.filter_cons, (hg hd).2]
      by_cases h : hd.typ = t
      · simp [h, (hg hd).1, ih]
      · simp [h, ih]

theorem lsType_mapNode (s : Scene) (m : String) (f : SceneNode → SceneNode) (t : String)
    (hf : ∀ nd, (f nd).name = nd.name ∧ (f nd).typ = nd.typ) :
    (s.mapNode m f).lsType t = s.lsType t := by
  unfold Scene.lsType Scene.mapNode
  exact filtmap_map_pres (fun nd => by
    by_cases h : nd.name = m <;> simp [h, hf nd])

theorem mem_lsType {s : Scene} {t n : String} (h : n ∈ s.lsType t) :
    ∃ nd ∈ s.nodes, nd.name = n := by
  unfold Scene.lsType at h
  rcases List.mem_map.mp h with ⟨nd, hmem, hname⟩
  exact ⟨nd, List.mem_of_mem_filter hmem, hname⟩

theorem ebind_ok {α β : Type} (a : α) (f : α → Except String β) :
    (Except.ok a >>= f) = f a := rfl

theorem setAttrE_ok {s : Scene} {p m a : String} {v : AttrValue} {nd : SceneNode}
    (hp : parsePath p = (m, some a)) (hf : s.findNode m = some nd) (hA : nd.hasAttr a = true) :
    s.setAttrE p v = .ok (s.setAttrU p v) := by
  unfold Scene.setAttrE Scene.setAttrU
  rw [hp]
  simp [hf, hA]

theorem dataWeight : (".weight" : String).data = '.' :: ("weight" : String).data := by decide

theorem dataTranslate : (".translate" : String).data = '.' :: ("translate" : String).data := by
  decide

theorem dataRotate : (".rotate" : String).data = '.' :: ("rotate" : String).data := by decide

theorem dataRotAcc : (".rotationAccumulationMode" : String).data
    = '.' :: ("rotationAccumulationMode" : String).data := by decide

theorem dataScaleAcc : (".scaleAccumulationMode" : String).data
    = '.' :: ("scaleAccumulationMode" : String).data := by decide

theorem transformTail_eq (s3 : Scene) (origin layer : String) (st : Int)
    (h7 : (transformSix s3 layer).setAttrE (origin ++ ".translate") (.vecV 0 0 0)
      = .ok ((transformSix s3 layer).setAttrU (origin ++ ".translate") (.vecV 0 0 0)))
    (h8 : ((transformSix s3 layer).setAttrU (origin ++ ".translate")
        (.vecV 0 0 0)).setAttrE (origin ++ ".rotate") (.vecV 0 0 0)
      = .ok (((transformSix s3 layer).setAttrU (origin ++ ".translate")
        (.vecV 0 0 0)).setAttrU (origin ++ ".rotate") (.vecV 0 0 0))) :
    SIP_TransformToOrigin_tail s3 origin layer st
      = .ok (transformTailF s3 origin layer st) := by
  simp only [SIP_TransformToOrigin_tail, transformTailF]
  rw [h7, ebind_ok, h8, ebind_ok]

theorem dataOverride : (".override" : String).data = '.' :: ("override" : String).data := by decide

theorem findNode_setAttrU_other {s : Scene} {p m a n : String} (v : AttrValue)
    (hp : parsePath p = (m, some a)) (hne : n ≠ m) :
    (s.setAttrU p v).findNode n = s.findNode n := by
  unfold Scene.setAttrU
  rw [hp]
  exact findNode_mapNode_other _ (fun x => by by_cases h : x.hasAttr a <;> simp [h]) hne

theorem findNode_addAttr_other {s : Scene} {m n attr : String} (v : AttrValue) (hne : n ≠ m) :
    (s.addAttr m attr v).findNode n = s.findNode n :=
  findNode_mapNode_other _ (fun _ => rfl) hne

theorem lsType_setAttrU (s : Scene) (p : String) (v : AttrValue) (t : String) :
    (s.setAttrU p v).lsType t = s.lsType t := by
  unfold Scene.setAttrU
  rcases hp : parsePath p with ⟨n, o⟩
  cases o with
  | none => simp [hp]
  | some a =>
      simp only [hp]
      exact lsType_mapNode _ _ _ _ (fun nd => by by_cases h : nd.hasAttr a <;> simp [h])

theorem lsType_addAttr (s : Scene) (m attr : String) (v : AttrValue) (t : String) :
    (s.addAttr m attr v).lsType t = s.lsType t :=
  lsType_mapNode _ _ _ _ (fun _ => ⟨rfl, rfl⟩)

theorem transformTail_spec (s3 : Scene) (origin layer : String) (st : Int)
    (A : List (String × AttrValue)) (ond : SceneNode)
    (hno : noDot origin) (hnl : noDot layer) (hne : origin ≠ layer)
    (hfl : s3.findNode layer =
      some { name := layer, typ := "animLayer", parent := none, attrs := A })
    (hDel : lookupA A "deleteMe" = none)
    (hW : (lookupA A "weight").isSome = true)
    (hfo : s3.findNode origin = some ond)
    (hT : ond.hasAttr "translate" = true) (hR : ond.hasAttr "rotate" = true) :
    SIP_TransformToOrigin_tail s3 origin layer st = .ok (transformTailF s3 origin layer st)
    ∧ (transformTailF s3 origin layer st).lsType "animLayer" = s3.lsType "animLayer"
    ∧ (transformTailF s3 origin layer st).objExists (layer ++ ".deleteMe") = true
    ∧ (transformTailF s3 origin layer st).getAttr? (layer ++ ".override") = lookupA A "override"
    ∧ (transformTailF s3 origin layer st).getAttr? (origin ++ ".translate") = some (.vecV 0 0 0)
    ∧ (transformTailF s3 origin layer st).getAttr? (origin ++ ".rotate") = some (.vecV 0 0 0)
    ∧ (origin, some layer, st) ∈ (transformTailF s3 origin layer st).keys := by
  have hond : ond.name = origin := findNode_name hfo
  have hlne : layer ≠ origin := Ne.symm hne
  have pDel : parsePath (layer ++ ".deleteMe") = (layer, some "deleteMe") :=
    parsePath_concat hnl dataDeleteMe
  have pW : parsePath (layer ++ ".weight") = (layer, some "weight") :=
    parsePath_concat hnl dataWeight
  have pOv : parsePath (layer ++ ".override") = (layer, some "override") :=
    parsePath_concat hnl dataOverride
  have pT : parsePath (origin ++ ".translate") = (origin, some "translate") :=
    parsePath_concat hno dataTranslate
  have pR : parsePath (origin ++ ".rotate") = (origin, some "rotate") :=
    parsePath_concat hno dataRotate
  -- the garbage-tag step
  have hOEl : s3.objExists layer = true := by
    rw [objExists_name hnl, hfl]
    rfl
  have hOEd : s3.objExists (layer ++ ".deleteMe") = false := by
    rw [objExists_attr hnl dataDeleteMe, hfl]
    simp [SceneNode.hasAttr, hDel]
  have htag : SIP_TagForGarbage s3 layer =
      (s3.addAttr layer "deleteMe" (.boolV false)).setAttrU
        (layer ++ ".deleteMe") (.boolV true) := tagGarbage_guard hOEl hOEd
  have hflT : (SIP_TagForGarbage s3 layer).findNode layer =
      some { name := layer, typ := "animLayer", parent := none,
             attrs := setA (setA A "deleteMe" (.boolV false)) "deleteMe" (.boolV true) } := by
    rw [htag, findNode_setAttrU _ _ _ _ _ pDel, findNode_addAttr, hfl]
    simp [SceneNode.hasAttr, lookupA_setA_self]
  have hfoT : (SIP_TagForGarbage s3 layer).findNode origin = some ond := by
    rw [htag, findNode_setAttrU_other _ pDel hne, findNode_addAttr_other _ hne]
    exact hfo
  -- the weight step
  have hW4 : (lookupA (setA (setA A "deleteMe" (.boolV false)) "deleteMe" (.boolV true))
      "weight").isSome = true := by
    rw [lookupA_setA_ne _ _ (by decide), lookupA_setA_ne _ _ (by decide)]
    exact hW
  have hfl5 : ((SIP_TagForGarbage s3 layer).setAttrU (layer ++ ".weight") (.numV 1)).findNode
      layer =
      some { name := layer, typ := "animLayer", parent := none,
             attrs := setA (setA (setA A "deleteMe" (.boolV false)) "deleteMe" (.boolV true))
               "weight" (.numV 1) } := by
    rw [findNode_setAttrU _ _ _ _ _ pW, hflT]
    simp [SceneNode.hasAttr, hW4]
  have hfo5 : ((SIP_TagForGarbage s3 layer).setAttrU (layer ++ ".weight") (.numV 1)).findNode
      origin = some ond := by
    rw [findNode_setAttrU_other _ pW hne]
    exact hfoT
  -- the keyed-weight scene (transformSix) has the same nodes
  have hfl6 : (transformSix s3 layer).findNode layer =
      some { name := layer, typ := "animLayer", parent := none,
             attrs := setA (setA (setA A "deleteMe" (.boolV false)) "deleteMe" (.boolV true))
               "weight" (.numV 1) } := hfl5
  have hfo6 : (transformSix s3 layer).findNode origin = some ond := hfo5
  -- zeroing the origin
  have h7ok : (transformSix s3 layer).setAttrE (origin ++ ".translate") (.vecV 0 0 0)
      = .ok ((transformSix s3 layer).setAttrU (origin ++ ".translate") (.vecV 0 0 0)) :=
    setAttrE_ok pT hfo6 hT
  have hfo7 : ((transformSix s3 layer).setAttrU (origin ++ ".translate")
      (.vecV 0 0 0)).findNode origin =
      some { ond with attrs := setA ond.attrs "translate" (.vecV 0 0 0) } := by
    rw [findNode_setAttrU _ _ _ _ _ pT, hfo6]
    simp [hond, hT]
  have hfl7 : ((transformSix s3 layer).setAttrU (origin ++ ".translate")
      (.vecV 0 0 0)).findNode layer =
      some { name := layer, typ := "animLayer", parent := none,
             attrs := setA (setA (setA A "deleteMe" (.boolV false)) "deleteMe" (.boolV true))
               "weight" (.numV 1) } := by
    rw [findNode_setAttrU_other _ pT hlne]
    exact hfl6
  have hR7 : ({ ond with attrs := setA ond.attrs "translate" (.vecV 0 0 0) } : SceneNode).hasAttr
      "rotate" = true := by
    unfold SceneNode.hasAttr at hR ⊢
    simpa [lookupA_setA_ne _ _ (by decide : ("translate" : String) ≠ "rotate")] using hR
  have h8ok : ((transformSix s3 layer).setAttrU (origin ++ ".translate")
        (.vecV 0 0 0)).setAttrE (origin ++ ".rotate") (.vecV 0 0 0)
      = .ok (((transformSix s3 layer).setAttrU (origin ++ ".translate")
        (.vecV 0 0 0)).setAttrU (origin ++ ".rotate") (.vecV 0 0 0)) :=
    setAttrE_ok pR hfo7 hR7
  have hfo8 : (((transformSix s3 layer).setAttrU (origin ++ ".translate")
      (.vecV 0 0 0)).setAttrU (origin ++ ".rotate") (.vecV 0 0 0)).findNode origin =
      some { ond with attrs := (setA (setA ond.attrs "translate" (.vecV 0 0 0))
        "rotate" (.vecV 0 0 0)) } := by
    have hRlk : (lookupA ond.attrs "rotate").isSome = true := hR
    have hlkr : lookupA (setA ond.attrs "translate" (.vecV 0 0 0)) "rotate"
        = lookupA ond.attrs "rotate" := lookupA_setA_ne _ _ (by decide)
    rw [findNode_setAttrU _ _ _ _ _ pR, hfo7]
    simp [hond, SceneNode.hasAttr, hlkr, hRlk]
  have hfl8 : (((transformSix s3 layer).setAttrU (origin ++ ".translate")
      (.vecV 0 0 0)).setAttrU (origin ++ ".rotate") (.vecV 0 0 0)).findNode layer =
      some { name := layer, typ := "animLayer", parent := none,
             attrs := setA (setA (setA A "deleteMe" (.boolV false)) "deleteMe" (.boolV true))
               "weight" (.numV 1) } := by
    rw [findNode_setAttrU_other _ pR hlne]
    exact hfl7
  have hflF : (transformTailF s3 origin layer st).findNode layer =
      some { name := layer, typ := "animLayer", parent := none,
             attrs := setA (setA (setA A "deleteMe" (.boolV false)) "deleteMe" (.boolV true))
               "weight" (.numV 1) } := hfl8
  have hfoF : (transformTailF s3 origin layer st).findNode origin =
      some { ond with attrs := (setA (setA ond.attrs "translate" (.vecV 0 0 0))
        "rotate" (.vecV 0 0 0)) } := hfo8
  refine ⟨transformTail_eq s3 origin layer st h7ok h8ok, ?_, ?_, ?_, ?_, ?_, ?_⟩
  · show ((((transformSix s3 layer).setAttrU (origin ++ ".translate")
      (.vecV 0 0 0)).setAttrU (origin ++ ".rotate") (.vecV 0 0 0))).lsType "animLayer"
      = s3.lsType "animLayer"
    rw [lsType_setAttrU, lsType_setAttrU]
    show ((SIP_TagForGarbage s3 layer).setAttrU (layer ++ ".weight") (.numV 1)).lsType
      "animLayer" = s3.lsType "animLayer"
    rw [lsType_setAttrU, htag, lsType_setAttrU, lsType_addAttr]
  · rw [objExists_attr hnl dataDeleteMe, hflF]
    simp [SceneNode.hasAttr,
      lookupA_setA_ne _ _ (by decide : ("weight" : String) ≠ "deleteMe"), lookupA_setA_self]
  · rw [getAttr?_of_parse pOv, hflF]
    simp only [Option.some_bind]
    rw [lookupA_setA_ne _ _ (by decide : ("weight" : String) ≠ "override"),
      lookupA_setA_ne _ _ (by decide : ("deleteMe" : String) ≠ "override"),
      lookupA_setA_ne _ _ (by decide : ("deleteMe" : String) ≠ "override")]
  · rw [getAttr?_of_parse pT, hfoF]
    simp only [Option.some_bind]
    rw [lookupA_setA_ne _ _ (by decide : ("rotate" : String) ≠ "translate"), lookupA_setA_self]
  · rw [getAttr?_of_parse pR, hfoF]
    simp only [Option.some_bind]
    rw [lookupA_setA_self]
  · show (origin, some layer, st) ∈
      ((((transformSix s3 layer).setAttrU (origin ++ ".translate")
        (.vecV 0 0 0)).setAttrU (origin ++ ".rotate") (.vecV 0 0 0))).keys
        ++ [(origin, some layer, st)]
    exact List.mem_append_right _ (List.mem_singleton.mpr rfl)

theorem transformPre_ok (s : Scene) (origin : String) (st en : Int)
    (hex : s.objExists origin = true) :
    transformPre s origin st en = .ok (preF s origin st en) := by
  unfold transformPre preF
  rw [hex]
  rfl

theorem transformBranch_add (s2 : Scene) :
    transformBranch s2 false = .ok (s2.animLayerCreate false false false false false) := rfl

theorem animLayerCreate_findNode_layer (s2 : Scene) (m so ov pt lk : Bool) :
    (s2.animLayerCreate m so ov pt lk).1.findNode (s2.freshName "AnimLayer") =
      some { name := s2.freshName "AnimLayer", typ := "animLayer", parent := none,
             attrs := animLayerInitAttrs m so ov pt lk } := by
  unfold Scene.animLayerCreate Scene.findNode
  simp [List.find?_cons]

theorem transformBranch_zero (s2 : Scene) :
    transformBranch s2 true = .ok (animLayerZeroF s2) := by
  have hnl : noDot (s2.freshName "AnimLayer") := noDot_freshName (by decide)
  have pRA : parsePath (s2.freshName "AnimLayer" ++ ".rotationAccumulationMode")
      = (s2.freshName "AnimLayer", some "rotationAccumulationMode") :=
    parsePath_concat hnl dataRotAcc
  have pSA : parsePath (s2.freshName "AnimLayer" ++ ".scaleAccumulationMode")
      = (s2.freshName "AnimLayer", some "scaleAccumulationMode") :=
    parsePath_concat hnl dataScaleAcc
  have hfl := animLayerCreate_findNode_layer s2 false false true true false
  have e1 : (s2.animLayerCreate false false true true false).1.setAttrE
      (s2.freshName "AnimLayer" ++ ".rotationAccumulationMode") (.numV 0)
      = .ok ((s2.animLayerCreate false false true true false).1.setAttrU
        (s2.freshName "AnimLayer" ++ ".rotationAccumulationMode") (.numV 0)) :=
    setAttrE_ok pRA hfl (by rfl)
  have hfl2 : ((s2.animLayerCreate false false true true false).1.setAttrU
      (s2.freshName "AnimLayer" ++ ".rotationAccumulationMode") (.numV 0)).findNode
      (s2.freshName "AnimLayer") =
      some { name := s2.freshName "AnimLayer", typ := "animLayer", parent := none,
             attrs := setA (animLayerInitAttrs false false true true false)
               "rotationAccumulationMode" (.numV 0) } := by
    rw [findNode_setAttrU _ _ _ _ _ pRA, hfl]
    simp [SceneNode.hasAttr, animLayerInitAttrs, lookupA, setA]
  have e2 : ((s2.animLayerCreate false false true true false).1.setAttrU
      (s2.freshName "AnimLayer" ++ ".rotationAccumulationMode") (.numV 0)).setAttrE
      (s2.freshName "AnimLayer" ++ ".scaleAccumulationMode") (.numV 1)
      = .ok (((s2.animLayerCreate false false true true false).1.setAttrU
        (s2.freshName "AnimLayer" ++ ".rotationAccumulationMode") (.numV 0)).setAttrU
        (s2.freshName "AnimLayer" ++ ".scaleAccumulationMode") (.numV 1)) :=
    setAttrE_ok pSA hfl2 (by
      simp [SceneNode.hasAttr, animLayerInitAttrs, lookupA, setA])
  show (do
    let (sa, l) := s2.animLayerCreate false false true true false
    let sc ← sa.setAttrE (l ++ ".rotationAccumulationMode") (.numV 0)
    let sd ← sc.setAttrE (l ++ ".scaleAccumulationMode") (.numV 1)
    Except.ok (sd, l)) = .ok (animLayerZeroF s2)
  show (do
    let sc ← (s2.animLayerCreate false false true true false).1.setAttrE
      (s2.freshName "AnimLayer" ++ ".rotationAccumulationMode") (.numV 0)
    let sd ← sc.setAttrE (s2.freshName "AnimLayer" ++ ".scaleAccumulationMode") (.numV 1)
    Except.ok (sd, s2.freshName "AnimLayer")) = .ok (animLayerZeroF s2)
  rw [e1, ebind_ok, e2, ebind_ok]
  rfl

theorem findNode_animLayerCreate_other (s2 : Scene) (m so ov pt lk : Bool) (n : String)
    (hne : n ≠ s2.freshName "AnimLayer") :
    (s2.animLayerCreate m so ov pt lk).1.findNode n = s2.findNode n := by
  unfold Scene.animLayerCreate Scene.findNode
  simp [List.find?_cons, Ne.symm hne]

theorem animLayerCreate_lsType (s2 : Scene) (m so ov pt lk : Bool) :
    (s2.animLayerCreate m so ov pt lk).1.lsType "animLayer" =
      s2.freshName "AnimLayer" :: s2.lsType "animLayer" := by
  unfold Scene.animLayerCreate Scene.lsType
  simp

theorem animLayerZeroF_findNode_layer (s2 : Scene) :
    (animLayerZeroF s2).1.findNode (s2.freshName "AnimLayer") =
      some { name := s2.freshName "AnimLayer", typ := "animLayer", parent := none,
             attrs := setA (setA (animLayerInitAttrs false false true true false)
               "rotationAccumulationMode" (.numV 0)) "scaleAccumulationMode" (.numV 1) } := by
  have hnl : noDot (s2.freshName "AnimLayer") := noDot_freshName (by decide)
  have pRA : parsePath (s2.freshName "AnimLayer" ++ ".rotationAccumulationMode")
      = (s2.freshName "AnimLayer", some "rotationAccumulationMode") :=
    parsePath_concat hnl dataRotAcc
  have pSA : parsePath (s2.freshName "AnimLayer" ++ ".scaleAccumulationMode")
      = (s2.freshName "AnimLayer", some "scaleAccumulationMode") :=
    parsePath_concat hnl dataScaleAcc
  have hfl := animLayerCreate_findNode_layer s2 false false true true false
  have hfl2 : ((s2.animLayerCreate false false true true false).1.setAttrU
      (s2.freshName "AnimLayer" ++ ".rotationAccumulationMode") (.numV 0)).findNode
      (s2.freshName "AnimLayer") =
      some { name := s2.freshName "AnimLayer", typ := "animLayer", parent := none,
             attrs := setA (animLayerInitAttrs false false true true false)
               "rotationAccumulationMode" (.numV 0) } := by
    rw [findNode_setAttrU _ _ _ _ _ pRA, hfl]
    simp [SceneNode.hasAttr, animLayerInitAttrs, lookupA, setA]
  show (((s2.animLayerCreate false false true true false).1.setAttrU
      (s2.freshName "AnimLayer" ++ ".rotationAccumulationMode") (.numV 0)).setAttrU
      (s2.freshName "AnimLayer" ++ ".scaleAccumulationMode") (.numV 1)).findNode
      (s2.freshName "AnimLayer") = _
  rw [findNode_setAttrU _ _ _ _ _ pSA, hfl2]
  simp [SceneNode.hasAttr, animLayerInitAttrs, lookupA, setA]

theorem animLayerZeroF_findNode_other (s2 : Scene) (n : String)
    (hne : n ≠ s2.freshName "AnimLayer") :
    (animLayerZeroF s2).1.findNode n = s2.findNode n := by
  have hnl : noDot (s2.freshName "AnimLayer") := noDot_freshName (by decide)
  have pRA : parsePath (s2.freshName "AnimLayer" ++ ".rotationAccumulationMode")
      = (s2.freshName "AnimLayer", some "rotationAccumulationMode") :=
    parsePath_concat hnl dataRotAcc
  have pSA : parsePath (s2.freshName "AnimLayer" ++ ".scaleAccumulationMode")
      = (s2.freshName "AnimLayer", some "scaleAccumulationMode") :=
    parsePath_concat hnl dataScaleAcc
  show (((s2.animLayerCreate false false true true false).1.setAttrU
      (s2.freshName "AnimLayer" ++ ".rotationAccumulationMode") (.numV 0)).setAttrU
      (s2.freshName "AnimLayer" ++ ".scaleAccumulationMode") (.numV 1)).findNode n = _
  rw [findNode_setAttrU_other _ pSA hne, findNode_setAttrU_other _ pRA hne]
  exact findNode_animLayerCreate_other s2 false false true true false n hne

theorem animLayerZeroF_lsType (s2 : Scene) :
    (animLayerZeroF s2).1.lsType "animLayer" =
      s2.freshName "AnimLayer" :: s2.lsType "animLayer" := by
  show (((s2.animLayerCreate false false true true false).1.setAttrU
      (s2.freshName "AnimLayer" ++ ".rotationAccumulationMode") (.numV 0)).setAttrU
      (s2.freshName "AnimLayer" ++ ".scaleAccumulationMode") (.numV 1)).lsType "animLayer" = _
  rw [lsType_setAttrU, lsType_setAttrU]
  exact animLayerCreate_lsType s2 false false true true false

/-- C8: `SIP_TransformToOrigin(origin, startFrame, endFrame, zeroOrigin)`
creates exactly one new animation layer (the generated layer name is new to
the scene and the scene's animation-layer list grows by exactly that
layer), tags it with the `deleteMe` garbage attribute, makes it an override
layer when `zeroOrigin` is true and an additive layer when false (the
layer's `override` flag equals `zeroOrigin`), sets the origin's translate
and rotate to (0,0,0), and keys the origin on the new layer at the start
frame. -/
theorem SIP_TransformToOrigin_spec (s : Scene) (origin : String) (st en : Int) (z : Bool)
    (hno : noDot origin) (hex : s.objExists origin = true)
    (hT : s.objExists (origin ++ ".translate") = true)
    (hR : s.objExists (origin ++ ".rotate") = true) :
    ∃ s', SIP_TransformToOrigin s origin st en z = .ok s'
      ∧ s.freshName "AnimLayer" ∉ s.lsType "animLayer"
      ∧ s'.lsType "animLayer" = s.freshName "AnimLayer" :: s.lsType "animLayer"
      ∧ s'.objExists (s.freshName "AnimLayer" ++ ".deleteMe") = true
      ∧ s'.getAttr? (s.freshName "AnimLayer" ++ ".override") = some (.boolV z)
      ∧ s'.getAttr? (origin ++ ".translate") = some (.vecV 0 0 0)
      ∧ s'.getAttr? (origin ++ ".rotate") = some (.vecV 0 0 0)
      ∧ (origin, some (s.freshName "AnimLayer"), st) ∈ s'.keys := by
  have hex' := hex
  rw [objExists_name hno] at hex'
  obtain ⟨ond, hfo⟩ := Option.isSome_iff_exists.mp hex'
  have hond : ond.name = origin := findNode_name hfo
  have hmem_ond : ond ∈ s.nodes := List.mem_of_find?_eq_some hfo
  have hTn : ond.hasAttr "translate" = true := by
    have h := objExists_attr (s := s) hno dataTranslate
    rw [h, hfo] at hT
    simpa using hT
  have hRn : ond.hasAttr "rotate" = true := by
    have h := objExists_attr (s := s) hno dataRotate
    rw [h, hfo] at hR
    simpa using hR
  have hnl : noDot (s.freshName "AnimLayer") := noDot_freshName (by decide)
  have hfreshNot : s.freshName "AnimLayer" ∉ s.lsType "animLayer" := by
    intro hmem
    obtain ⟨nd, hnd, hname⟩ := mem_lsType hmem
    exact freshName_ne _ hnd hname
  have hneq : origin ≠ s.freshName "AnimLayer" := by
    intro h
    exact freshName_ne _ hmem_ond (hond.trans h)
  cases z with
  | true =>
      have hfl3 : (animLayerZeroF (preF s origin st en)).1.findNode (s.freshName "AnimLayer") =
          some { name := s.freshName "AnimLayer", typ := "animLayer", parent := none,
                 attrs := setA (setA (animLayerInitAttrs false false true true false)
                   "rotationAccumulationMode" (.numV 0)) "scaleAccumulationMode" (.numV 1) } :=
        animLayerZeroF_findNode_layer (preF s origin st en)
      have hfo3 : (animLayerZeroF (preF s origin st en)).1.findNode origin = some ond := by
        have h := animLayerZeroF_findNode_other (preF s origin st en) origin hneq
        rw [h]
        exact hfo
      obtain ⟨hEqT, hls, hDel', hOv, hTr, hRo, hKey⟩ :=
        transformTail_spec (animLayerZeroF (preF s origin st en)).1 origin
          (s.freshName "AnimLayer") st
          (setA (setA (animLayerInitAttrs false false true true false)
            "rotationAccumulationMode" (.numV 0)) "scaleAccumulationMode" (.numV 1)) ond
          hno hnl hneq hfl3 (by decide) (by decide) hfo3 hTn hRn
      have hEq : SIP_TransformToOrigin s origin st en true =
          SIP_TransformToOrigin_tail (animLayerZeroF (preF s origin st en)).1 origin
            (s.freshName "AnimLayer") st := by
        simp only [SIP_TransformToOrigin, transformPre_ok s origin st en hex, ebind_ok,
          transformBranch_zero]
        rfl
      refine ⟨transformTailF (animLayerZeroF (preF s origin st en)).1 origin
        (s.freshName "AnimLayer") st, ?_, hfreshNot, ?_, hDel', ?_, hTr, hRo, hKey⟩
      · rw [hEq]
        exact hEqT
      · rw [hls, animLayerZeroF_lsType]
        rfl
      · rw [hOv]
        decide
  | false =>
      have hfl3 : ((preF s origin st en).animLayerCreate false false false false
          false).1.findNode (s.freshName "AnimLayer") =
          some { name := s.freshName "AnimLayer", typ := "animLayer", parent := none,
                 attrs := animLayerInitAttrs false false false false false } :=
        animLayerCreate_findNode_layer (preF s origin st en) false false false false false
      have hfo3 : ((preF s origin st en).animLayerCreate false false false false
          false).1.findNode origin = some ond := by
        have h := findNode_animLayerCreate_other (preF s origin st en)
          false false false false false origin hneq
        rw [h]
        exact hfo
      obtain ⟨hEqT, hls, hDel', hOv, hTr, hRo, hKey⟩ :=
        transformTail_spec ((preF s origin st en).animLayerCreate false false false false
          false).1 origin (s.freshName "AnimLayer") st
          (animLayerInitAttrs false false false false false) ond
          hno hnl hneq hfl3 (by decide) (by decide) hfo3 hTn hRn
      have hEq : SIP_TransformToOrigin s origin st en false =
          SIP_TransformToOrigin_tail ((preF s origin st en).animLayerCreate false false false
            false false).1 origin (s.freshName "AnimLayer") st := by
        simp only [SIP_TransformToOrigin, transformPre_ok s origin st en hex, ebind_ok,
          transformBranch_add]
        rfl
      refine ⟨transformTailF ((preF s origin st en).animLayerCreate false false false false
        false).1 origin (s.freshName "AnimLayer") st, ?_, hfreshNot, ?_, hDel', ?_, hTr, hRo,
        hKey⟩
      · rw [hEq]
        exact hEqT
      · rw [hls, animLayerCreate_lsType]
        rfl
      · rw [hOv]
        decide

theorem SIP_TransformToOrigin_spec_witness :
    ∃ s', SIP_TransformToOrigin
        (mkScene [jointNode "root" [("translate", .vecV 1 2 3), ("rotate", .vecV 4 5 6)]])
        "root" 1 24 true = .ok s'
      ∧ (mkScene [jointNode "root" [("translate", .vecV 1 2 3), ("rotate", .vecV 4 5 6)]]).freshName
          "AnimLayer"
        ∉ (mkScene [jointNode "root" [("translate", .vecV 1 2 3),
            ("rotate", .vecV 4 5 6)]]).lsType "animLayer"
      ∧ s'.lsType "animLayer" =
          (mkScene [jointNode "root" [("translate", .vecV 1 2 3),
            ("rotate", .vecV 4 5 6)]]).freshName "AnimLayer"
          :: (mkScene [jointNode "root" [("translate", .vecV 1 2 3),
            ("rotate", .vecV 4 5 6)]]).lsType "animLayer"
      ∧ s'.objExists ((mkScene [jointNode "root" [("translate", .vecV 1 2 3),
          ("rotate", .vecV 4 5 6)]]).freshName "AnimLayer" ++ ".deleteMe") = true
      ∧ s'.getAttr? ((mkScene [jointNode "root" [("translate", .vecV 1 2 3),
          ("rotate", .vecV 4 5 6)]]).freshName "AnimLayer" ++ ".override") = some (.boolV true)
      ∧ s'.getAttr? ("root" ++ ".translate") = some (.vecV 0 0 0)
      ∧ s'.getAttr? ("root" ++ ".rotate") = some (.vecV 0 0 0)
      ∧ ("root", some ((mkScene [jointNode "root" [("translate", .vecV 1 2 3),
          ("rotate", .vecV 4 5 6)]]).freshName "AnimLayer"), 1) ∈ s'.keys :=
  SIP_TransformToOrigin_spec
    (mkScene [jointNode "root" [("translate", .vecV 1 2 3), ("rotate", .vecV 4 5 6)]])
    "root" 1 24 true (by decide) (by decide) (by decide) (by decide)

theorem delete_nodes_sublist (t : Scene) (c : String) :
    (t.delete c).nodes.Sublist t.nodes := List.filter_sublist _

theorem clearStep_sublist (t : Scene) (c : String) :
    (clearStep t c).nodes.Sublist t.nodes := by
  unfold clearStep
  split
  · exact delete_nodes_sublist t c
  · exact List.Sublist.refl _

theorem foldl_clear_sublist (l : List String) : ∀ t : Scene,
    ((l.foldl clearStep t).nodes).Sublist t.nodes := by
  induction l with
  | nil => intro t; exact List.Sublist.refl _
  | cons c cs ih =>
      intro t
      exact List.Sublist.trans (ih (clearStep t c)) (clearStep_sublist t c)

theorem absent_stays {nd : SceneNode} {t : Scene} (l : List String) (h : nd ∉ t.nodes) :
    nd ∉ (l.foldl clearStep t).nodes :=
  fun hmem => h ((foldl_clear_sublist l t).subset hmem)

theorem find?_name_of_mem_nodup {l : List SceneNode} {nd : SceneNode} {a : String}
    (hnodup : (l.map (fun nd => nd.name)).Nodup)
    (hmem : nd ∈ l) (hname : nd.name = a) :
    l.find? (fun x => x.name = a) = some nd := by
  induction l with
  | nil => cases hmem
  | cons hd tl ih =>
      rw [List.map_cons, List.nodup_cons] at hnodup
      rcases List.mem_cons.mp hmem with h | h
      · subst h
        exact List.find?_cons_of_pos _ (by simpa using hname)
      · have hhd : hd.name ≠ a := by
          intro he
          exact hnodup.1 (he ▸ hname ▸ List.mem_map_of_mem (fun nd => nd.name) h)
        rw [List.find?_cons_of_neg _ (by simpa using hhd)]
        exact ih hnodup.2 h

theorem findNode_of_mem_nodup {s : Scene} {nd : SceneNode} {a : String}
    (hnodup : (s.nodes.map (fun nd => nd.name)).Nodup)
    (hmem : nd ∈ s.nodes) (hname : nd.name = a) : s.findNode a = some nd :=
  find?_name_of_mem_nodup hnodup hmem hname

theorem names_nodup_of_sublist {t s : Scene} (hsub : t.nodes.Sublist s.nodes)
    (hnodup : (s.nodes.map (fun nd => nd.name)).Nodup) :
    (t.nodes.map (fun nd => nd.name)).Nodup :=
  (hsub.map (fun nd => nd.name)).nodup hnodup

theorem findNode_sub {t s : Scene} {a : String} {nd : SceneNode}
    (hsub : t.nodes.Sublist s.nodes)
    (hnodup : (s.nodes.map (fun nd => nd.name)).Nodup)
    (h : t.findNode a = some nd) : s.findNode a = some nd :=
  findNode_of_mem_nodup hnodup (hsub.subset (List.mem_of_find?_eq_some h)) (findNode_name h)

theorem parentOf_sub {t s : Scene} {a p : String}
    (hsub : t.nodes.Sublist s.nodes)
    (hnodup : (s.nodes.map (fun nd => nd.name)).Nodup)
    (h : t.parentOf a = some p) : s.parentOf a = some p := by
  unfold Scene.parentOf at h ⊢
  cases hf : t.findNode a with
  | none => rw [hf] at h; cases h
  | some nd =>
      rw [hf] at h
      rw [findNode_sub hsub hnodup hf]
      exact h

theorem ancChain_mem_sub {t s : Scene} (hsub : t.nodes.Sublist s.nodes)
    (hnodup : (s.nodes.map (fun nd => nd.name)).Nodup) :
    ∀ (k : Nat) (a b : String), b ∈ ancChain t k a → b ∈ ancChain s k a := by
  intro k
  induction k with
  | zero => intro a b h; cases h
  | succ k ih =>
      intro a b h
      unfold ancChain at h ⊢
      cases hp : t.parentOf a with
      | none => rw [hp] at h; cases h
      | some p =>
          rw [hp] at h
          rw [parentOf_sub hsub hnodup hp]
          rcases List.mem_cons.mp h with h | h
          · exact h ▸ List.mem_cons_self _ _
          · exact List.mem_cons_of_mem _ (ih p b h)

theorem ancChain_mem_fuel (s : Scene) :
    ∀ (k k' : Nat), k ≤ k' → ∀ (a b : String), b ∈ ancChain s k a → b ∈ ancChain s k' a := by
  intro k
  induction k with
  | zero => intro k' _ a b h; cases h
  | succ k ih =>
      intro k' hk a b h
      obtain ⟨k'', rfl⟩ : ∃ k'', k' = k'' + 1 := ⟨k' - 1, by omega⟩
      unfold ancChain at h ⊢
      cases hp : s.parentOf a with
      | none => rw [hp] at h; cases h
      | some p =>
          rw [hp] at h
          show b ∈ p :: ancChain s k'' p
          have h' : b ∈ p :: ancChain s k p := h
          rcases List.mem_cons.mp h' with h2 | h2
          · exact h2 ▸ List.mem_cons_self _ _
          · exact List.mem_cons_of_mem _ (ih k'' (by omega) p b h2)

theorem isDescOf_sub {t s : Scene} {a b : String}
    (hsub : t.nodes.Sublist s.nodes)
    (hnodup : (s.nodes.map (fun nd => nd.name)).Nodup)
    (h : t.isDescOf a b = true) : s.isDescOf a b = true := by
  unfold Scene.isDescOf at h ⊢
  rw [decide_eq_true_iff] at h ⊢
  exact ancChain_mem_fuel s t.nodes.length s.nodes.length hsub.length_le a b
    (ancChain_mem_sub hsub hnodup t.nodes.length a b h)

theorem delete_self_not_mem {t : Scene} {m : SceneNode} {c : String} (h : m.name = c) :
    m ∉ (t.delete c).nodes := by
  intro hmem
  have := List.of_mem_filter hmem
  simp [h] at this

theorem delete_keep {t : Scene} {nd : SceneNode} {c : String}
    (hmem : nd ∈ t.nodes) (hne : nd.name ≠ c) (hdesc : t.isDescOf nd.name c = false) :
    nd ∈ (t.delete c).nodes := by
  unfold Scene.delete
  exact List.mem_filter.mpr ⟨hmem, by simp [hne, hdesc]⟩

theorem clearStep_guard_findNode {t : Scene} {c : String} (hc : noDot c)
    (h : t.objExists (c ++ ".deleteMe") = true) :
    ∃ m, t.findNode c = some m ∧ m.hasAttr "deleteMe" = true := by
  rw [objExists_attr hc dataDeleteMe] at h
  cases hf : t.findNode c with
  | none => rw [hf] at h; cases h
  | some m =>
      rw [hf] at h
      exact ⟨m, rfl, by simpa using h⟩

theorem clear_kill (s : Scene)
    (hnd : ∀ nd ∈ s.nodes, noDot nd.name = true)
    (hnodup : (s.nodes.map (fun nd => nd.name)).Nodup)
    {nd : SceneNode} (hhas : nd.hasAttr "deleteMe" = true) (hs : nd ∈ s.nodes) :
    ∀ (l : List String) (t : Scene), t.nodes.Sublist s.nodes → nd.name ∈ l →
      nd ∉ (l.foldl clearStep t).nodes := by
  intro l
  induction l with
  | nil => intro t _ h; cases h
  | cons c cs ih =>
      intro t hsub hmem
      simp only [List.foldl_cons]
      by_cases hin : nd ∈ t.nodes
      · rcases List.mem_cons.mp hmem with he | he
        · subst he
          have hfind : t.findNode nd.name = some nd :=
            findNode_of_mem_nodup (names_nodup_of_sublist hsub hnodup) hin rfl
          have hguard : t.objExists (nd.name ++ ".deleteMe") = true := by
            rw [objExists_attr (hnd nd hs) dataDeleteMe, hfind]
            simpa using hhas
          apply absent_stays
          show nd ∉ (clearStep t nd.name).nodes
          unfold clearStep
          rw [hguard]
          simp only [if_true]
          exact delete_self_not_mem rfl
        · exact ih (clearStep t c)
            (List.Sublist.trans (clearStep_sublist t c) hsub) he
      · apply absent_stays
        exact fun hm => hin ((clearStep_sublist t c).subset hm)

theorem clear_keep (s : Scene)
    (hnd : ∀ nd ∈ s.nodes, noDot nd.name = true)
    (hnodup : (s.nodes.map (fun nd => nd.name)).Nodup)
    {nd : SceneNode} (hnot : nd.hasAttr "deleteMe" = false) (hs : nd ∈ s.nodes) :
    ∀ (l : List String) (t : Scene), (∀ c ∈ l, noDot c = true) →
      t.nodes.Sublist s.nodes → nd ∈ t.nodes →
      (∀ m ∈ s.nodes, m ∉ (l.foldl clearStep t).nodes → ¬ s.isDescOf nd.name m.name = true) →
      nd ∈ (l.foldl clearStep t).nodes := by
  intro l
  induction l with
  | nil => intro t _ _ hin _; simpa using hin
  | cons c cs ih =>
      intro t hcl hsub hin H
      simp only [List.foldl_cons] at H ⊢
      by_cases hguard : t.objExists (c ++ ".deleteMe") = true
      · have hstep : clearStep t c = t.delete c := by
          unfold clearStep
          rw [hguard]
          simp only [if_true]
        obtain ⟨m, hfm, hma⟩ :=
          clearStep_guard_findNode (hcl c (List.mem_cons_self _ _)) hguard
        have hmname : m.name = c := findNode_name hfm
        have hmmem : m ∈ s.nodes := hsub.subset (List.mem_of_find?_eq_some hfm)
        have hne : nd.name ≠ c := by
          intro he
          have hfe : t.findNode c = some nd :=
            findNode_of_mem_nodup (names_nodup_of_sublist hsub hnodup) hin he
          rw [hfe] at hfm
          cases hfm
          rw [hma] at hnot
          cases hnot
        have hdesc : t.isDescOf nd.name c = false := by
          cases hd : t.isDescOf nd.name c with
          | false => rfl
          | true =>
              have hss : s.isDescOf nd.name c = true := isDescOf_sub hsub hnodup hd
              have hgone : m ∉ (cs.foldl clearStep (clearStep t c)).nodes := by
                apply absent_stays
                rw [hstep]
                exact delete_self_not_mem hmname
              have := H m hmmem hgone
              rw [hmname] at this
              exact absurd hss this
        have hkeep : nd ∈ (t.delete c).nodes := delete_keep hin hne hdesc
        rw [hstep] at H ⊢
        exact ih (t.delete c) (fun x hx => hcl x (List.mem_cons_of_mem _ hx))
          (List.Sublist.trans (delete_nodes_sublist t c) hsub) hkeep H
      · have hstep : clearStep t c = t := by
          unfold clearStep
          simp [hguard]
        rw [hstep] at H ⊢
        exact ih t (fun x hx => hcl x (List.mem_cons_of_mem _ hx)) hsub hin H

theorem mem_lsTransforms {s : Scene} {n : String} (h : n ∈ s.lsTransforms) :
    ∃ nd ∈ s.nodes, nd.name = n := by
  unfold Scene.lsTransforms at h
  rcases List.mem_map.mp h with ⟨nd, hmem, hname⟩
  exact ⟨nd, List.mem_of_mem_filter hmem, hname⟩

/-- C7: provided node names are well formed (no dots) and unique,
`SIP_ClearGarbage` removes every transform node that carries the `deleteMe`
attribute, and every node that does not carry the attribute and is not a
descendant of a deleted node remains in the scene with its record (type,
parent, attributes) unchanged. -/
theorem SIP_ClearGarbage_spec (s : Scene)
    (hnd : ∀ nd ∈ s.nodes, noDot nd.name = true)
    (hnodup : (s.nodes.map (fun nd => nd.name)).Nodup) :
    (∀ nd ∈ s.nodes, isTransformType nd.typ = true → nd.hasAttr "deleteMe" = true →
      nd ∉ (SIP_ClearGarbage s).nodes)
    ∧ (∀ nd ∈ s.nodes, nd.hasAttr "deleteMe" = false →
      (∀ m ∈ s.nodes, m ∉ (SIP_ClearGarbage s).nodes → ¬ s.isDescOf nd.name m.name = true) →
      nd ∈ (SIP_ClearGarbage s).nodes) := by
  constructor
  · intro nd hmem htyp hhas
    have hname : nd.name ∈ s.lsTransforms :=
      List.mem_map_of_mem _ (List.mem_filter.mpr ⟨hmem, by simpa using htyp⟩)
    exact clear_kill s hnd hnodup hhas hmem s.lsTransforms s (List.Sublist.refl _) hname
  · intro nd hmem hhas H
    have hcl : ∀ c ∈ s.lsTransforms, noDot c = true := by
      intro c hc
      obtain ⟨m, hm, hmc⟩ := mem_lsTransforms hc
      exact hmc ▸ hnd m hm
    exact clear_keep s hnd hnodup hhas hmem s.lsTransforms s hcl
      (List.Sublist.refl _) hmem H

theorem SIP_ClearGarbage_spec_witness :
    ({ name := "grp", typ := "transform", parent := none,
       attrs := [("deleteMe", AttrValue.boolV true)] } : SceneNode)
      ∉ (SIP_ClearGarbage (mkScene
          [{ name := "grp", typ := "transform", parent := none,
             attrs := [("deleteMe", AttrValue.boolV true)] },
           { name := "child", typ := "joint", parent := some "grp", attrs := [] },
           { name := "keep", typ := "transform", parent := none, attrs := [] }])).nodes
    ∧ ({ name := "keep", typ := "transform", parent := none, attrs := [] } : SceneNode)
      ∈ (SIP_ClearGarbage (mkScene
          [{ name := "grp", typ := "transform", parent := none,
             attrs := [("deleteMe", AttrValue.boolV true)] },
           { name := "child", typ := "joint", parent := some "grp", attrs := [] },
           { name := "keep", typ := "transform", parent := none, attrs := [] }])).nodes :=
  ⟨(SIP_ClearGarbage_spec (mkScene
      [{ name := "grp", typ := "transform", parent := none,
         attrs := [("deleteMe", AttrValue.boolV true)] },
       { name := "child", typ := "joint", parent := some "grp", attrs := [] },
       { name := "keep", typ := "transform", parent := none, attrs := [] }])
      (by decide) (by decide)).1
      { name := "grp", typ := "transform", parent := none,
        attrs := [("deleteMe", AttrValue.boolV true)] }
      (by decide) (by decide) (by decide),
   (SIP_ClearGarbage_spec (mkScene
      [{ name := "grp", typ := "transform", parent := none,
         attrs := [("deleteMe", AttrValue.boolV true)] },
       { name := "child", typ := "joint", parent := some "grp", attrs := [] },
       { name := "keep", typ := "transform", parent := none, attrs := [] }])
      (by decide) (by decide)).2
      { name := "keep", typ := "transform", parent := none, attrs := [] }
      (by decide) (by decide) (by decide)⟩

/-- C10's guards hold, but the claim's positive half fails on the code:
for an existing origin with no descendants, `cmds.listRelatives` returns
`None` and the `for cur in tempHierarchy` loop (source line 290) raises
`TypeError`, so no list is returned at all.  With the string "Error" or a
nonexistent node the function returns the empty list and leaves the scene
unchanged, and on an origin that does have a joint hierarchy it returns the
duplicated joints with the duplicate root last, tagged with `deleteMe`. -/
theorem SIP_CopyAndConnectSkeleton_behavior :
    SIP_CopyAndConnectSkeleton (mkScene []) "Error" = .ok (mkScene [], [])
    ∧ SIP_CopyAndConnectSkeleton (mkScene []) "ghost" = .ok (mkScene [], [])
    ∧ SIP_CopyAndConnectSkeleton (mkScene [jointNode "root" [("origin", .boolV true)]]) "root"
        = .error "TypeError: NoneType object is not iterable"
    ∧ (SIP_CopyAndConnectSkeleton (mkScene
        [{ name := "root", typ := "joint", parent := none,
           attrs := [("translateX", .numV 0), ("translateY", .numV 0), ("translateZ", .numV 0),
                     ("rotateX", .numV 0), ("rotateY", .numV 0), ("rotateZ", .numV 0),
                     ("scaleX", .numV 1), ("scaleY", .numV 1), ("scaleZ", .numV 1)] },
         { name := "child", typ := "joint", parent := some "root",
           attrs := [("translateX", .numV 0), ("translateY", .numV 0), ("translateZ", .numV 0),
                     ("rotateX", .numV 0), ("rotateY", .numV 0), ("rotateZ", .numV 0),
                     ("scaleX", .numV 1), ("scaleY", .numV 1), ("scaleZ", .numV 1)] }]) "root").map
        (fun r => (r.2, r.1.objExists ("root100000" ++ ".deleteMe")))
      = .ok ((["child100000", "root100000"], true)) := by
  refine ⟨rfl, rfl, rfl, rfl⟩
